import Mathlib

/-!
# vgmstream: AAX segmented layout and KWB wave-bank header parser

A shallow embedding of `src/layout/aax_layout.c` and `src/meta/kwb.c`, and the
properties proved about them.

Conventions of the embedding

* Integers. `int` and `int32_t` are 32-bit two's complement: every store into such
  an object and every `int` operation goes through `to_int32`, which folds the exact
  result into `[-2^31, 2^31)` (an `int` sum that overflows wraps, as the compiled
  code does). `off_t` and `size_t` are 64 bits wide: no offset formed
  here leaves the range of `off_t`, so offsets are plain `Int`; the one `size_t`
  subtraction is reduced modulo `2^64`. Values returned by the unsigned stream
  readers are `Nat`, reduced to the width of the C return type, and `uint32_t`
  arithmetic is reduced modulo `2^32`.
* A pointer is an `Option`; a read through a null handle or outside the segment
  array ends the run in `fault`, carrying the state reached at that access.
* `while` loops take fuel; a run that exhausts it ends in `out_of_fuel`.
* Functions of the library that the two files call but do not define
  (`reset_vgmstream`, `render_vgmstream`, `vgmstream_do_loop`,
  `vgmstream_samples_to_do`, the `read_*` stream readers,
  `guess_endianness32bit`, `allocate_vgmstream`, `init_atrac9`,
  `atrac9_bytes_to_samples_cfg`, `vgmstream_open_stream`) are parameters.
* Calls made to collaborators are recorded in a log so that statements can
  speak of what was delegated and in which order.
-/

namespace Vgmstream

/-! ## Machine integers -/

/-- The value a C `int` or `int32_t` holds for the exact number `x`: the 32-bit two's
complement reading, `x` itself when `-2^31 ≤ x < 2^31`. -/
def to_int32 (x : Int) : Int :=
  (x + 2147483648) % 4294967296 - 2147483648

/-! ## Data model of the layout -/

/-- The fields of `VGMSTREAM` that the layout reads or writes; `rest` stands for
every other field (decoder state, loop points, channel cursors). -/
structure VGMSTREAM (σ : Type) where
  num_samples : Int
  channels : Int
  loop_flag : Int
  current_sample : Int
  samples_into_block : Int
  rest : σ
  deriving DecidableEq, Repr

/-- The record `aax_codec_data`. Every slot of `segments` is a `VGMSTREAM*`, so a
slot is `none` while it is null; a null `segments` pointer is the empty list. -/
structure aax_codec_data (σ : Type) where
  segment_count : Int
  current_segment : Int
  loop_segment : Int
  segments : List (Option (VGMSTREAM σ))
  deriving DecidableEq, Repr

/-- Library functions called by the layout and defined elsewhere.
`vgmstream_do_loop` returns its `int` result and the parent stream as it leaves it;
`render_vgmstream` receives the sample count and the segment (its writes to the
output buffer are recorded in the call log, not here). -/
structure Collaborators (σ : Type) where
  vgmstream_do_loop : VGMSTREAM σ → Int × VGMSTREAM σ
  vgmstream_samples_to_do : Int → Int → VGMSTREAM σ → Int
  reset_vgmstream : VGMSTREAM σ → VGMSTREAM σ
  render_vgmstream : Int → VGMSTREAM σ → VGMSTREAM σ

/-- A call delegated to a segment: `reset_vgmstream(segments[segment])`, or
`render_vgmstream(&buffer[buffer_index], samples, segments[segment])`. -/
inductive Call where
  | reset (segment : Int)
  | render (segment : Int) (buffer_index : Int) (samples : Int)
  deriving DecidableEq, Repr

/-- Heap traffic of construction and teardown. -/
inductive Mem where
  | calloc_data
  | calloc_segments (slots : Int)
  | close_vgmstream (segment : Int)
  | free_segments
  | free_data
  deriving DecidableEq, Repr

/-- Outcome of one pass through the body of a loop. -/
inductive Step (α : Type) where
  | next (s : α)
  | fault (s : α)
  deriving DecidableEq, Repr

/-- Outcome of a run of a loop. -/
inductive Run (α : Type) where
  | returned (s : α)
  | fault (s : α)
  | out_of_fuel (s : α)
  deriving DecidableEq, Repr

/-- The segment `data->segments[i]` points at, when `i` is inside the array and
the slot is not null. -/
def segment_at {σ : Type} (data : aax_codec_data σ) (i : Int) : Option (VGMSTREAM σ) :=
  if 0 ≤ i then (data.segments[i.toNat]?).join else none

/-- Store the new contents of the segment behind `data->segments[i]`. -/
def set_segment {σ : Type} (data : aax_codec_data σ) (i : Int) (v : VGMSTREAM σ) :
    aax_codec_data σ :=
  { data with segments := data.segments.set i.toNat (some v) }

/-! ## `free_layout_aax`, `init_layout_aax`, `reset_layout_aax` -/

/-- The function `free_layout_aax`: nothing for a null `data`; otherwise every
segment is closed and the array freed when `data->segments` is not null, then
`data` is freed. -/
def free_layout_aax {σ : Type} (data : Option (aax_codec_data σ)) : List Mem :=
  match data with
  | none => []
  | some d =>
    (if d.segments.isEmpty then []
     else (List.range d.segment_count.toNat).map (fun (i : Nat) => Mem.close_vgmstream (i : Int))
            ++ [Mem.free_segments])
    ++ [Mem.free_data]

/-- The function `init_layout_aax`. `data_ok` and `segments_ok` say whether the first
and the second `calloc` succeed. The result is the returned pointer and the
heap traffic of the call. -/
def init_layout_aax (σ : Type) (segment_count : Int) (data_ok segments_ok : Bool) :
    Option (aax_codec_data σ) × List Mem :=
  if segment_count ≤ 0 ∨ segment_count > 255 then
    (none, free_layout_aax (none : Option (aax_codec_data σ)))
  else if !data_ok then
    (none, free_layout_aax (none : Option (aax_codec_data σ)))
  else
    let data : aax_codec_data σ :=
      { segment_count := segment_count, current_segment := 0, loop_segment := 0,
        segments := [] }
    if !segments_ok then
      (none, [Mem.calloc_data] ++ free_layout_aax (some data))
    else
      (some { data with segments := List.replicate segment_count.toNat none },
        [Mem.calloc_data, Mem.calloc_segments segment_count])

/-- The `for` loop of `reset_layout_aax`, with `n` passes left and the counter at `i`. -/
def reset_segments {σ : Type} (c : Collaborators σ) :
    Nat → Nat → aax_codec_data σ → List Call → Option (aax_codec_data σ × List Call)
  | 0, _, data, calls => some (data, calls)
  | n + 1, i, data, calls =>
    match segment_at data (i : Int) with
    | none => none
    | some seg =>
      reset_segments c n (i + 1) (set_segment data (i : Int) (c.reset_vgmstream seg))
        (calls ++ [Call.reset (i : Int)])

/-- The function `reset_layout_aax`, on a non-null `data` (the null guard returns at
once). `none` when a segment handle it passes on is null or outside the array. -/
def reset_layout_aax {σ : Type} (c : Collaborators σ) (data : aax_codec_data σ) :
    Option (aax_codec_data σ × List Call) :=
  reset_segments c data.segment_count.toNat 0 { data with current_segment := 0 } []

/-! ## `render_vgmstream_aax` -/

/-- Local and shared state of a run of `render_vgmstream_aax`: the local
`samples_written`, the parent stream, the layout data, and the calls delegated
so far. -/
structure RenderState (σ : Type) where
  samples_written : Int
  vgmstream : VGMSTREAM σ
  data : aax_codec_data σ
  calls : List Call
  deriving DecidableEq, Repr

/-- The Loop transition (source lines 37 to 42), entered with the parent stream as
`vgmstream_do_loop` left it. -/
def loop_transition {σ : Type} (c : Collaborators σ) (s : RenderState σ)
    (vgmstream : VGMSTREAM σ) : Step (RenderState σ) :=
  let data := { s.data with current_segment := s.data.loop_segment }
  match segment_at data data.current_segment with
  | none => Step.fault { s with vgmstream := vgmstream, data := data }
  | some seg =>
    Step.next
      { samples_written := s.samples_written
        vgmstream := { vgmstream with samples_into_block := 0 }
        data := set_segment data data.current_segment (c.reset_vgmstream seg)
        calls := s.calls ++ [Call.reset data.current_segment] }

/-- The Advance transition (source lines 51 to 55). -/
def advance_transition {σ : Type} (c : Collaborators σ) (s : RenderState σ)
    (vgmstream : VGMSTREAM σ) : Step (RenderState σ) :=
  let data := { s.data with current_segment := to_int32 (s.data.current_segment + 1) }
  match segment_at data data.current_segment with
  | none => Step.fault { s with vgmstream := vgmstream, data := data }
  | some seg =>
    Step.next
      { samples_written := s.samples_written
        vgmstream := { vgmstream with samples_into_block := 0 }
        data := set_segment data data.current_segment (c.reset_vgmstream seg)
        calls := s.calls ++ [Call.reset data.current_segment] }

/-- One pass through the body of the `while` loop of `render_vgmstream_aax`. The sums, the
difference and the product are `int` arithmetic. -/
def render_iteration {σ : Type} (c : Collaborators σ) (sample_count : Int)
    (s : RenderState σ) : Step (RenderState σ) :=
  match segment_at s.data s.data.current_segment with
  | none => Step.fault s
  | some seg =>
    let samples_this_block := seg.num_samples
    let looped : Int × VGMSTREAM σ :=
      if s.vgmstream.loop_flag ≠ 0 then c.vgmstream_do_loop s.vgmstream
      else (0, s.vgmstream)
    if looped.1 ≠ 0 then
      loop_transition c s looped.2
    else
      let vgmstream := looped.2
      let samples_to_do := to_int32 (c.vgmstream_samples_to_do samples_this_block 1 vgmstream)
      let samples_to_do :=
        if to_int32 (s.samples_written + samples_to_do) > sample_count then
          to_int32 (sample_count - s.samples_written)
        else samples_to_do
      if samples_to_do = 0 then
        advance_transition c s vgmstream
      else
        Step.next
          { samples_written := to_int32 (s.samples_written + samples_to_do)
            vgmstream :=
              { vgmstream with
                current_sample := to_int32 (vgmstream.current_sample + samples_to_do)
                samples_into_block :=
                  to_int32 (vgmstream.samples_into_block + samples_to_do) }
            data := set_segment s.data s.data.current_segment
              (c.render_vgmstream samples_to_do seg)
            calls := s.calls ++
              [Call.render s.data.current_segment
                (to_int32 (s.samples_written * seg.channels)) samples_to_do] }

/-- The `while (samples_written < sample_count)` loop. -/
def render_loop {σ : Type} (c : Collaborators σ) (sample_count : Int) :
    Nat → RenderState σ → Run (RenderState σ)
  | 0, s => if s.samples_written < sample_count then Run.out_of_fuel s else Run.returned s
  | fuel + 1, s =>
    if s.samples_written < sample_count then
      match render_iteration c sample_count s with
      | Step.fault s1 => Run.fault s1
      | Step.next s1 => render_loop c sample_count fuel s1
    else Run.returned s

/-- The function `render_vgmstream_aax`; `data` is `vgmstream->layout_data`. -/
def render_vgmstream_aax {σ : Type} (c : Collaborators σ) (fuel : Nat) (sample_count : Int)
    (vgmstream : VGMSTREAM σ) (data : aax_codec_data σ) : Run (RenderState σ) :=
  render_loop c sample_count fuel
    { samples_written := 0, vgmstream := vgmstream, data := data, calls := [] }

/-- Sample count and channel count of a segment. -/
def geometry {σ : Type} (v : VGMSTREAM σ) : Int × Int :=
  (v.num_samples, v.channels)

/-- Samples held by a list of segments. -/
def total_samples : List (Int × Int) → Int
  | [] => 0
  | (n, _) :: rest => n + total_samples rest

/-- The calls the specification describes for a request that starts on segment `i` with
`written` samples produced and `owed` samples still requested, over segments given
by their sample and channel counts: segment `i` gives `min n owed` samples (a
render, at the `int` buffer index `written * channels`, unless that amount is 0); when samples
are still owed after that, an Advance transition resets segment `i + 1` and play
goes on there. -/
def schedule : Nat → Int → Int → List (Int × Int) → List Call
  | _, _, _, [] => []
  | i, written, owed, (n, ch) :: rest =>
    (if min n owed = 0 then []
     else [Call.render (i : Int) (to_int32 (written * ch)) (min n owed)]) ++
    (if owed - min n owed = 0 then []
     else Call.reset ((i : Int) + 1) ::
       schedule (i + 1) (written + min n owed) (owed - min n owed) rest)

/-- Indices of the segments rendered from, in call order. -/
def rendered_segments : List Call → List Int
  | [] => []
  | Call.reset _ :: rest => rendered_segments rest
  | Call.render i _ _ :: rest => i :: rendered_segments rest

/-- Statement used in the proof of sequential play: a run entered at the start of
segment `cur` (nothing of it played), with the segments `post` after it, returns
after the scheduled calls, when no `int` of the run leaves its range. -/
def PlaysFromStart {σ : Type} (c : Collaborators σ) (N : Int) (post : List (VGMSTREAM σ)) :
    Prop :=
  ∀ (pre : List (Option (VGMSTREAM σ))) (cur : VGMSTREAM σ) (fuel : Nat) (s : RenderState σ),
    s.data.segments = pre ++ some cur :: post.map some →
    s.data.current_segment = (pre.length : Int) →
    s.vgmstream.loop_flag = 0 →
    s.vgmstream.samples_into_block = 0 →
    0 ≤ s.samples_written →
    s.samples_written < N →
    N - s.samples_written ≤ total_samples ((cur :: post).map geometry) →
    (∀ x ∈ cur :: post, 0 ≤ x.num_samples ∧ x.num_samples ≤ 2147483647 - N) →
    (pre.length : Int) + (post.length : Int) < 2147483647 →
    -2147483648 ≤ s.vgmstream.current_sample →
    s.vgmstream.current_sample + (N - s.samples_written) ≤ 2147483647 →
    2 * (post.length + 1) ≤ fuel →
    ∃ s1, render_loop c N fuel s = Run.returned s1 ∧
      s1.calls = s.calls ++
        schedule pre.length s.samples_written (N - s.samples_written)
          ((cur :: post).map geometry) ∧
      s1.samples_written = N ∧
      s1.vgmstream.current_sample = s.vgmstream.current_sample + (N - s.samples_written)

/-- Statement used in the proof of sequential play: a run entered with segment `cur`
played to its end and samples still owed advances and returns after the
scheduled calls on `post`, when no `int` of the run leaves its range. -/
def PlaysFromEnd {σ : Type} (c : Collaborators σ) (N : Int) (post : List (VGMSTREAM σ)) :
    Prop :=
  ∀ (pre : List (Option (VGMSTREAM σ))) (cur : VGMSTREAM σ) (fuel : Nat) (s : RenderState σ),
    s.data.segments = pre ++ some cur :: post.map some →
    s.data.current_segment = (pre.length : Int) →
    s.vgmstream.loop_flag = 0 →
    s.vgmstream.samples_into_block = cur.num_samples →
    0 ≤ s.samples_written →
    s.samples_written < N →
    N - s.samples_written ≤ total_samples (post.map geometry) →
    (∀ x ∈ post, 0 ≤ x.num_samples ∧ x.num_samples ≤ 2147483647 - N) →
    N ≤ 2147483647 →
    (pre.length : Int) + (post.length : Int) < 2147483647 →
    -2147483648 ≤ s.vgmstream.current_sample →
    s.vgmstream.current_sample + (N - s.samples_written) ≤ 2147483647 →
    2 * post.length + 1 ≤ fuel →
    ∃ s1, render_loop c N fuel s = Run.returned s1 ∧
      s1.calls = s.calls ++
        Call.reset ((pre.length : Int) + 1) ::
          schedule (pre.length + 1) s.samples_written (N - s.samples_written)
            (post.map geometry) ∧
      s1.samples_written = N ∧
      s1.vgmstream.current_sample = s.vgmstream.current_sample + (N - s.samples_written)

/-- A `STREAMFILE`, seen through the library readers the parser calls: what each reader
answers at an offset. `guess_endianness32bit` is the library probe of the same name. -/
structure STREAMFILE where
  u8 : Int → Nat
  u16le : Int → Nat
  u32le : Int → Nat
  u32be : Int → Nat
  s32le : Int → Int
  s32be : Int → Int
  guess_endianness32bit : Int → Int

/-- Reader `read_u8`: a `uint8_t`. -/
def read_u8 (offset : Int) (sf : STREAMFILE) : Nat := sf.u8 offset % 2 ^ 8

/-- Reader `read_u16le`: a `uint16_t`. -/
def read_u16le (offset : Int) (sf : STREAMFILE) : Nat := sf.u16le offset % 2 ^ 16

/-- Reader `read_u32le`: a `uint32_t`. -/
def read_u32le (offset : Int) (sf : STREAMFILE) : Nat := sf.u32le offset % 2 ^ 32

/-- Reader `read_u32be`: a `uint32_t`. -/
def read_u32be (offset : Int) (sf : STREAMFILE) : Nat := sf.u32be offset % 2 ^ 32

/-- Reader `read_s32le`: an `int32_t`. -/
def read_s32le (offset : Int) (sf : STREAMFILE) : Int :=
  to_int32 (sf.s32le offset)

/-- Reader `read_s32be`: an `int32_t`. -/
def read_s32be (offset : Int) (sf : STREAMFILE) : Int :=
  to_int32 (sf.s32be offset)

/-- The enumeration `kwb_codec`. -/
inductive kwb_codec where
  | PCM16 | MSADPCM | DSP_HEAD | DSP_BODY | AT9
  deriving DecidableEq, Repr

/-- The record `kwb_header`. -/
structure kwb_header where
  big_endian : Int
  total_subsongs : Int
  target_subsong : Int
  codec : kwb_codec
  channels : Int
  sample_rate : Int
  num_samples : Int
  loop_start : Int
  loop_end : Int
  loop_flag : Int
  block_size : Int
  stream_offset : Int
  stream_size : Int
  dsp_offset : Int
  deriving DecidableEq, Repr

/-- The header `kwb = {0}` of `init_vgmstream_kwb` after `kwb.target_subsong = target_subsong`. -/
def kwb_request (target_subsong : Int) : kwb_header :=
  { big_endian := 0, total_subsongs := 0, target_subsong := target_subsong,
    codec := kwb_codec.PCM16, channels := 0, sample_rate := 0, num_samples := 0,
    loop_start := 0, loop_end := 0, loop_flag := 0, block_size := 0, stream_offset := 0,
    stream_size := 0, dsp_offset := 0 }

/-! ## `parse_type_kwb2` -/

/-- Source lines 214 to 241 of `parse_type_kwb2`: the sub-entry at `subsound_offset` is
read into the header (`num_samples` is an `int32_t`, the other fields hold what was
read); `none` is `goto fail` (unknown codec). -/
def kwb2_entry (kwb : kwb_header) (subsound_offset : Int) (sf_h : STREAMFILE) :
    Option kwb_header :=
  let codec := read_u8 (subsound_offset + 0x02) sf_h
  let kwb :=
    { kwb with
      sample_rate := read_u16le (subsound_offset + 0x00) sf_h
      channels := read_u8 (subsound_offset + 0x03) sf_h
      block_size := read_u16le (subsound_offset + 0x04) sf_h
      num_samples := to_int32 (read_u32le (subsound_offset + 0x0c) sf_h)
      stream_offset := read_u32le (subsound_offset + 0x10) sf_h
      stream_size := read_u32le (subsound_offset + 0x14) sf_h }
  if codec = 0x00 then some { kwb with codec := kwb_codec.PCM16 }
  else if codec = 0x10 then some { kwb with codec := kwb_codec.MSADPCM }
  else if codec = 0x90 then
    some { kwb with codec := kwb_codec.DSP_HEAD, dsp_offset := subsound_offset + 0x4c }
  else none

/-- Body of the inner loop of `parse_type_kwb2` (source lines 206 to 241) for counter `j`;
`subsound_start + j*subsound_size` is `int` arithmetic. -/
def kwb2_subsound (kwb : kwb_header) (subsound_start subsound_size : Int) (j : Nat)
    (sf_h : STREAMFILE) : Option kwb_header :=
  let kwb := { kwb with total_subsongs := to_int32 (kwb.total_subsongs + 1) }
  if kwb.total_subsongs ≠ kwb.target_subsong then some kwb
  else kwb2_entry kwb (to_int32 (subsound_start + (j : Int) * subsound_size)) sf_h

/-- The inner loop `for (j = 0; j < subsounds; j++)`, with `n` passes left and the counter
at `j`. -/
def kwb2_subsounds (subsound_start subsound_size : Int) (sf_h : STREAMFILE) :
    Nat → Nat → kwb_header → Option kwb_header
  | 0, _, kwb => some kwb
  | n + 1, j, kwb =>
    match kwb2_subsound kwb subsound_start subsound_size j sf_h with
    | none => none
    | some kwb => kwb2_subsounds subsound_start subsound_size sf_h n (j + 1) kwb

/-- Body of the outer loop of `parse_type_kwb2` (source lines 176 to 242) for counter `i`;
`subsound_start` is an `int` that receives the `off_t` sum. -/
def kwb2_sound (kwb : kwb_header) (offset : Int) (i : Nat) (sf_h : STREAMFILE) :
    Option kwb_header :=
  let sound_offset : Int := read_u32le (offset + 0x18 + (i : Int) * 0x04) sf_h
  if sound_offset = 0 then some kwb
  else
    let sound_offset := sound_offset + offset
    let version := read_u16le (sound_offset + 0x00) sf_h
    let subsounds := read_u8 (sound_offset + 0x03) sf_h
    let subsound_start : Int :=
      if version < 0xc000 then 0x2c else read_u16le (sound_offset + 0x2c) sf_h
    let subsound_size : Int :=
      if version < 0xc000 then 0x48 else read_u16le (sound_offset + 0x2e) sf_h
    let subsound_start := to_int32 (sound_offset + subsound_start)
    kwb2_subsounds subsound_start subsound_size sf_h subsounds 0 kwb

/-- The outer loop `for (i = 0; i < sounds; i++)`, with `n` passes left and the counter
at `i`. -/
def kwb2_sounds (offset : Int) (sf_h : STREAMFILE) :
    Nat → Nat → kwb_header → Option kwb_header
  | 0, _, kwb => some kwb
  | n + 1, i, kwb =>
    match kwb2_sound kwb offset i sf_h with
    | none => none
    | some kwb => kwb2_sounds offset sf_h n (i + 1) kwb

/-- The function `parse_type_kwb2`; `none` is `return 0`. -/
def parse_type_kwb2 (kwb : kwb_header) (offset : Int) (sf_h : STREAMFILE) :
    Option kwb_header :=
  let sounds := read_u16le (offset + 0x06) sf_h
  match kwb2_sounds offset sf_h sounds 0 kwb with
  | none => none
  | some kwb =>
    if kwb.target_subsong < 0 ∨ kwb.target_subsong > kwb.total_subsongs ∨
        kwb.total_subsongs < 1 then none
    else some kwb

/-! ## `parse_type_k4hd`, `parse_type_sdsd`, `parse_type_sdwi` -/

/-- The function `parse_type_k4hd`. `entries` is computed in `uint32_t`, where the addition
wraps, and stored in an `int`; `sample_rate` is an `int`. -/
def parse_type_k4hd (kwb : kwb_header) (offset : Int) (sf_h : STREAMFILE) :
    Option kwb_header :=
  let ppva_offset : Int := read_u16le (offset + 0x18) sf_h
  let ppva_offset := ppva_offset + offset
  if read_u32be (ppva_offset + 0x00) sf_h ≠ 0x50505641 then none
  else
    let entry_size : Int := read_u32le (ppva_offset + 0x08) sf_h
    let entries : Int :=
      to_int32 (((read_u32le (ppva_offset + 0x14) sf_h + 1) % 2 ^ 32 : Nat) : Int)
    if entry_size ≠ 0x1c then none
    else
      let kwb := { kwb with total_subsongs := entries }
      if kwb.target_subsong < 0 ∨ kwb.target_subsong > kwb.total_subsongs ∨
          kwb.total_subsongs < 1 then none
      else
        let header_offset : Int := ppva_offset + 0x20 + (kwb.target_subsong - 1) * entry_size
        let kwb :=
          { kwb with
            stream_offset := read_u32le (header_offset + 0x00) sf_h
            sample_rate := to_int32 (read_u32le (header_offset + 0x04) sf_h)
            stream_size := read_u32le (header_offset + 0x08) sf_h }
        if read_u32le (header_offset + 0x10) sf_h ≠ 2 then none
        else some { kwb with codec := kwb_codec.AT9, channels := 1 }

/-- The function `parse_type_sdsd`: `return 0`. -/
def parse_type_sdsd (_kwb : kwb_header) (_offset : Int) (_sf_h : STREAMFILE) :
    Option kwb_header :=
  none

/-- The function `parse_type_sdwi`; `entries` and `sample_rate` are `int`. -/
def parse_type_sdwi (kwb : kwb_header) (offset : Int) (sf_h : STREAMFILE) :
    Option kwb_header :=
  let smpl_offset : Int := read_u32be (offset + 0x28) sf_h
  let smpl_offset := smpl_offset + offset
  if read_u32be (smpl_offset + 0x00) sf_h ≠ 0x53447364 ∧
      read_u32be (smpl_offset + 0x04) sf_h ≠ 0x536D706C then none
  else
    let entries : Int := to_int32 (read_u32le (smpl_offset + 0x0c) sf_h)
    let entry_size : Int := 0x40
    let kwb := { kwb with total_subsongs := entries }
    if kwb.target_subsong < 0 ∨ kwb.target_subsong > kwb.total_subsongs ∨
        kwb.total_subsongs < 1 then none
    else
      let header_offset : Int := smpl_offset + 0x10 + (kwb.target_subsong - 1) * entry_size
      some
        { kwb with
          stream_offset := read_u32be (header_offset + 0x04) sf_h
          sample_rate := to_int32 (read_u32be (header_offset + 0x10) sf_h)
          stream_size := read_u32be (header_offset + 0x24) sf_h
          codec := kwb_codec.DSP_BODY
          channels := 1 }

/-! ## `parse_kwb` -/

/-- The 32-bit reader `read_u32` that `parse_kwb` selects from `kwb->big_endian`. -/
def read_u32 (kwb : kwb_header) : Int → STREAMFILE → Nat :=
  if kwb.big_endian ≠ 0 then read_u32be else read_u32le

/-- Source lines 392 to 421 of `parse_kwb`: the header with `big_endian` set, then
`head_offset` and `body_offset`. -/
def kwb_wrapper (kwb : kwb_header) (sf_h : STREAMFILE) : kwb_header × Int × Int :=
  if read_u32be 0x00 sf_h = 0x57484431 then
    let kwb := { kwb with big_endian := if read_u8 0x08 sf_h = 0xFF then 1 else 0 }
    let start : Int := read_u32 kwb 0x0c sf_h
    let head_offset : Int := read_u32 kwb (start + 0x00) sf_h
    let body_offset : Int := read_u32 kwb (start + 0x04) sf_h
    (kwb, head_offset, body_offset)
  else
    let head_offset : Int := 0x00
    let body_offset : Int := 0x00
    ({ kwb with big_endian := sf_h.guess_endianness32bit (head_offset + 0x08) },
      head_offset, body_offset)

/-- The `switch (type)` of `parse_kwb`. -/
def parse_type (type : Nat) (kwb : kwb_header) (head_offset : Int) (sf_h : STREAMFILE) :
    Option kwb_header :=
  if type = 0x4B574232 ∨ type = 0x4B57424E then parse_type_kwb2 kwb head_offset sf_h
  else if type = 0x4B344844 then parse_type_k4hd kwb head_offset sf_h
  else if type = 0x53447364 then parse_type_sdsd kwb head_offset sf_h
  else if type = 0x53445769 then parse_type_sdwi kwb head_offset sf_h
  else none

/-- The function `parse_kwb`; `none` is `return 0`. -/
def parse_kwb (kwb : kwb_header) (sf_h sf_b : STREAMFILE) : Option kwb_header :=
  let kwb0 := (kwb_wrapper kwb sf_h).1
  let head_offset := (kwb_wrapper kwb sf_h).2.1
  let body_offset := (kwb_wrapper kwb sf_h).2.2
  if read_u32 kwb0 (head_offset + 0x00) sf_h ≠ 0x5742485F ∨
      read_u32 kwb0 (head_offset + 0x04) sf_h ≠ 0x30303030 then none
  else if read_u32 kwb0 (body_offset + 0x00) sf_b ≠ 0x5742445F ∨
      read_u32 kwb0 (body_offset + 0x04) sf_b ≠ 0x30303030 then none
  else
    let head_offset := head_offset + 0x0c
    let body_offset := body_offset + 0x0c
    let type := read_u32be (head_offset + 0x00) sf_h
    match parse_type type kwb0 head_offset sf_h with
    | none => none
    | some kwb => some { kwb with stream_offset := kwb.stream_offset + body_offset }

/-! ## `init_vgmstream_kwb` -/

/-- Extension of the file handed to `init_vgmstream_kwb`, as `check_extensions` sees it. -/
inductive file_ext where
  | wbd | wb2 | sed | other
  deriving DecidableEq, Repr

/-- The values of `coding_t` that `init_vgmstream_kwb` assigns. -/
inductive coding_t where
  | coding_PCM16LE | coding_MSADPCM | coding_NGC_DSP | coding_ATRAC9
  deriving DecidableEq, Repr

/-- The values of `layout_t` that `init_vgmstream_kwb` assigns. -/
inductive layout_t where
  | layout_interleave | layout_none
  deriving DecidableEq, Repr

/-- The value of `meta_t` that `init_vgmstream_kwb` assigns. -/
inductive meta_t where
  | meta_KWB
  deriving DecidableEq, Repr

/-- One call of `dsp_read_coefs` (`hist = false`) or `dsp_read_hist` (`hist = true`) on the
stream: the region read (`sf_b` when `from_body`, else `sf_h`), then the offset, spacing
and endianness arguments. -/
structure dsp_table where
  hist : Bool
  from_body : Bool
  offset : Int
  spacing : Int
  big_endian : Int
  deriving DecidableEq, Repr

/-- The fields of `VGMSTREAM`, beyond those of the layout, that `init_vgmstream_kwb` writes
(an enumeration field is `none` until assigned); `codec_data` holds the `atrac9_config`
that `init_atrac9` was given (channels, config word); `dsp_tables` the coefficient
and history tables loaded into the channels. -/
structure stream_fields where
  meta_type : Option meta_t
  sample_rate : Int
  stream_size : Int
  num_streams : Int
  coding_type : Option coding_t
  layout_type : Option layout_t
  interleave_block_size : Int
  frame_size : Int
  codec_data : Option (Int × Nat)
  dsp_tables : List dsp_table
  deriving DecidableEq, Repr

/-- Library functions called by `init_vgmstream_kwb` and defined elsewhere, and whether
the build defines `VGM_USE_ATRAC9`. `allocate_vgmstream` answers the fresh stream or null;
`init_atrac9` and `vgmstream_open_stream` answer whether they succeed. -/
structure kwb_library where
  use_atrac9 : Bool
  allocate_vgmstream : Int → Int → Option (VGMSTREAM stream_fields)
  init_atrac9 : Int → Nat → Bool
  atrac9_bytes_to_samples_cfg : Int → Nat → Int
  vgmstream_open_stream : VGMSTREAM stream_fields → Int → Bool

/-- Calls of `init_vgmstream_kwb` that release or hand on what it built (calls on a null
pointer are not recorded). -/
inductive lib_call where
  | close_streamfile
  | close_vgmstream
  | vgmstream_open_stream (start_offset : Int)
  deriving DecidableEq, Repr

/-- The reader `read_s32` that `init_vgmstream_kwb` selects from `kwb.big_endian`. -/
def read_s32 (kwb : kwb_header) : Int → STREAMFILE → Int :=
  if kwb.big_endian ≠ 0 then read_s32be else read_s32le

/-- The `switch (kwb.codec)` of `init_vgmstream_kwb` (source lines 85 to 149): the stream and
the header as the switch leaves them; `none` is `goto fail`. In the `AT9` case
`stream_size -= extra_size` is `size_t` arithmetic and `num_samples` an `int32_t`. -/
def kwb_codec_setup (lib : kwb_library) (kwb : kwb_header) (vgmstream : VGMSTREAM stream_fields)
    (sf_b : STREAMFILE) : Option (VGMSTREAM stream_fields × kwb_header) :=
  match kwb.codec with
  | kwb_codec.PCM16 =>
    some ({ vgmstream with
            rest := { vgmstream.rest with
                      coding_type := some coding_t.coding_PCM16LE
                      layout_type := some layout_t.layout_interleave
                      interleave_block_size := 0x02 } }, kwb)
  | kwb_codec.MSADPCM =>
    some ({ vgmstream with
            rest := { vgmstream.rest with
                      coding_type := some coding_t.coding_MSADPCM
                      layout_type := some layout_t.layout_none
                      frame_size := kwb.block_size } }, kwb)
  | kwb_codec.DSP_HEAD =>
    if kwb.channels > 1 then none
    else
      some ({ vgmstream with
              rest := { vgmstream.rest with
                        coding_type := some coding_t.coding_NGC_DSP
                        layout_type := some layout_t.layout_interleave
                        interleave_block_size := 0x08
                        dsp_tables := vgmstream.rest.dsp_tables ++
                          [{ hist := false, from_body := false, offset := kwb.dsp_offset + 0x1c,
                             spacing := 0x60, big_endian := kwb.big_endian },
                           { hist := true, from_body := false, offset := kwb.dsp_offset + 0x40,
                             spacing := 0x60, big_endian := kwb.big_endian }] } }, kwb)
  | kwb_codec.DSP_BODY =>
    if kwb.channels > 1 then none
    else
      some ({ vgmstream with
              num_samples := read_s32 kwb (kwb.stream_offset + 0x00) sf_b
              rest := { vgmstream.rest with
                        coding_type := some coding_t.coding_NGC_DSP
                        layout_type := some layout_t.layout_interleave
                        interleave_block_size := 0x08
                        dsp_tables := vgmstream.rest.dsp_tables ++
                          [{ hist := false, from_body := true, offset := kwb.stream_offset + 0x1c,
                             spacing := 0x60, big_endian := kwb.big_endian },
                           { hist := true, from_body := true, offset := kwb.stream_offset + 0x40,
                             spacing := 0x60, big_endian := kwb.big_endian }] } },
            { kwb with stream_offset := kwb.stream_offset + 0x60 })
  | kwb_codec.AT9 =>
    if !lib.use_atrac9 then none
    else
      let extra_size : Int := read_u32le (kwb.stream_offset + 0x00) sf_b
      let config_data := read_u32be (kwb.stream_offset + 0x04) sf_b
      let kwb :=
        { kwb with
          stream_offset := kwb.stream_offset + extra_size
          stream_size := (kwb.stream_size - extra_size) % 2 ^ 64 }
      if !lib.init_atrac9 vgmstream.channels config_data then none
      else
        some ({ vgmstream with
                num_samples :=
                  to_int32 (lib.atrac9_bytes_to_samples_cfg kwb.stream_size config_data)
                rest := { vgmstream.rest with
                          codec_data := some (vgmstream.channels, config_data)
                          coding_type := some coding_t.coding_ATRAC9
                          layout_type := some layout_t.layout_none } }, kwb)

/-- The release of the companion header, `if (sf_h != sf) close_streamfile(sf_h)`. -/
def close_companion (companion : Bool) : List lib_call :=
  if companion then [lib_call.close_streamfile] else []

/-- Stream construction, source lines 72 to 160 of `init_vgmstream_kwb`, for a parsed header:
the returned pointer and the calls made. `companion` says that `sf_h` is a header file
opened beside `sf`. -/
def build_vgmstream_kwb (lib : kwb_library) (kwb : kwb_header) (sf_b : STREAMFILE)
    (companion : Bool) : Option (VGMSTREAM stream_fields) × List lib_call :=
  match lib.allocate_vgmstream kwb.channels kwb.loop_flag with
  | none => (none, close_companion companion)
  | some vgmstream =>
    let vgmstream :=
      { vgmstream with
        num_samples := kwb.num_samples
        rest := { vgmstream.rest with
                  meta_type := some meta_t.meta_KWB
                  sample_rate := kwb.sample_rate
                  stream_size := kwb.stream_size
                  num_streams := kwb.total_subsongs } }
    match kwb_codec_setup lib kwb vgmstream sf_b with
    | none => (none, close_companion companion ++ [lib_call.close_vgmstream])
    | some (vgmstream, kwb) =>
      if lib.vgmstream_open_stream vgmstream kwb.stream_offset then
        (some vgmstream,
          close_companion companion ++ [lib_call.vgmstream_open_stream kwb.stream_offset])
      else
        (none,
          close_companion companion ++ [lib_call.vgmstream_open_stream kwb.stream_offset] ++
            close_companion companion ++ [lib_call.close_vgmstream])

/-- Source lines 67 to 70 of `init_vgmstream_kwb`: index 0 is replaced by 1, the index is
stored in a zeroed header, and `parse_kwb` is called. -/
def parse_kwb_request (stream_index : Int) (sf_h sf_b : STREAMFILE) : Option kwb_header :=
  let target_subsong := if stream_index = 0 then 1 else stream_index
  parse_kwb (kwb_request target_subsong) sf_h sf_b

/-- The function `init_vgmstream_kwb`. The file `sf` is given by its extension `ext`, its
`stream_index` and its readers; `companion` is what `open_streamfile_by_ext` answers
for the header beside it (null when there is none). -/
def init_vgmstream_kwb (lib : kwb_library) (ext : file_ext) (stream_index : Int)
    (companion : Option STREAMFILE) (sf : STREAMFILE) :
    Option (VGMSTREAM stream_fields) × List lib_call :=
  if ext = file_ext.other then (none, [])
  else
    let sf_h : Option STREAMFILE := if ext = file_ext.sed then some sf else companion
    let sf_b := sf
    match sf_h with
    | none => (none, [])
    | some sf_h =>
      match parse_kwb_request stream_index sf_h sf_b with
      | none => (none, close_companion (ext ≠ file_ext.sed))
      | some kwb => build_vgmstream_kwb lib kwb sf_b (ext ≠ file_ext.sed)

/-! ## The KWB2 table as the specification describes it -/

/-- Offsets `E` of the sub-entries of the sound in table slot `i`, in order, as plain sums:
none for a zero slot; otherwise `offset + slot + start + j * stride` for `j` below the
8-bit sub-sound count at `record + 0x03`, where `record = offset + slot` and
`(start, stride)` is `(0x2C, 0x48)` when the 16-bit version at `record` is below
`0xC000` and else the two 16-bit values at `record + 0x2C` and `record + 0x2E`. -/
def kwb2_plain_entries (offset : Int) (sf_h : STREAMFILE) (i : Nat) : List Int :=
  let slot := read_u32le (offset + 0x18 + (i : Int) * 4) sf_h
  if slot = 0 then []
  else
    let record : Int := offset + slot
    let start : Int :=
      if read_u16le record sf_h < 0xC000 then 0x2C else read_u16le (record + 0x2C) sf_h
    let stride : Int :=
      if read_u16le record sf_h < 0xC000 then 0x48 else read_u16le (record + 0x2E) sf_h
    (List.range (read_u8 (record + 0x03) sf_h)).map
      (fun (j : Nat) => offset + slot + start + (j : Int) * stride)

/-- Plain-sum offsets of all sub-entries in walk order: the slots of the sound table in
table order, the sub-entries of each in order. -/
def kwb2_plain_walk (offset : Int) (sf_h : STREAMFILE) : List Int :=
  (List.range (read_u16le (offset + 0x06) sf_h)).flatMap (kwb2_plain_entries offset sf_h)

/-- Offsets `E` of the sub-entries of the sound in table slot `i`, in order, in the `int`
arithmetic of the parser: the sum `offset + slot + start` is held in an `int`, and
`j * stride` is added to it in `int`. They are the plain sums of `kwb2_plain_entries`
whenever those stay below `2^31`. -/
def kwb2_record_entries (offset : Int) (sf_h : STREAMFILE) (i : Nat) : List Int :=
  let slot := read_u32le (offset + 0x18 + (i : Int) * 4) sf_h
  if slot = 0 then []
  else
    let record : Int := offset + slot
    let start : Int :=
      if read_u16le record sf_h < 0xC000 then 0x2C else read_u16le (record + 0x2C) sf_h
    let stride : Int :=
      if read_u16le record sf_h < 0xC000 then 0x48 else read_u16le (record + 0x2E) sf_h
    (List.range (read_u8 (record + 0x03) sf_h)).map
      (fun (j : Nat) => to_int32 (to_int32 (offset + slot + start) + (j : Int) * stride))

/-- Offsets of all sub-entries in walk order, in the `int` arithmetic of the parser: the
slots of the sound table in table order, the sub-entries of each in order. -/
def kwb2_walk (offset : Int) (sf_h : STREAMFILE) : List Int :=
  (List.range (read_u16le (offset + 0x06) sf_h)).flatMap (kwb2_record_entries offset sf_h)

/-- Number of subsongs of a KWB2 table: the sum over the slots `i < sounds` with a non-zero
offset of the 8-bit count at `record + 0x03`. -/
def kwb2_subsong_count (offset : Int) (sf_h : STREAMFILE) : Nat :=
  ((List.range (read_u16le (offset + 0x06) sf_h)).map (fun (i : Nat) =>
    if read_u32le (offset + 0x18 + (i : Int) * 4) sf_h = 0 then 0
    else read_u8 (offset + read_u32le (offset + 0x18 + (i : Int) * 4) sf_h + 0x03) sf_h)).sum

/-- The two loops of `parse_type_kwb2` as one pass over a list of sub-entry offsets: each
entry raises `total_subsongs` (an `int`), the one that makes it equal to `target_subsong`
is read. -/
def kwb2_scan (sf_h : STREAMFILE) : List Int → kwb_header → Option kwb_header
  | [], kwb => some kwb
  | E :: rest, kwb =>
    if to_int32 (kwb.total_subsongs + 1) ≠ kwb.target_subsong then
      kwb2_scan sf_h rest { kwb with total_subsongs := to_int32 (kwb.total_subsongs + 1) }
    else
      match kwb2_entry { kwb with total_subsongs := to_int32 (kwb.total_subsongs + 1) } E
          sf_h with
      | none => none
      | some kwb => kwb2_scan sf_h rest kwb

/-- The header holds the fields of the sub-entry at `E`: 16-bit sample rate at `E + 0x00`,
8-bit channel count at `E + 0x03`, 16-bit block size at `E + 0x04`, 32-bit sample
count at `E + 0x0C` as an `int32_t`, 32-bit stream offset at `E + 0x10`, 32-bit stream
size at `E + 0x14`, all little-endian. -/
def kwb2_fields_at (sf_h : STREAMFILE) (E : Int) (d : kwb_header) : Prop :=
  d.sample_rate = read_u16le (E + 0x00) sf_h ∧
  d.channels = read_u8 (E + 0x03) sf_h ∧
  d.block_size = read_u16le (E + 0x04) sf_h ∧
  d.num_samples = to_int32 (read_u32le (E + 0x0C) sf_h) ∧
  d.stream_offset = read_u32le (E + 0x10) sf_h ∧
  d.stream_size = read_u32le (E + 0x14) sf_h

/-! ## The container as the specification describes it -/

/-- The 32-bit reader of a fused container: big-endian when the marker byte at `0x08` is
`0xFF`, little-endian otherwise. -/
def fused_read (sf_h : STREAMFILE) : Int → STREAMFILE → Nat :=
  if read_u8 0x08 sf_h = 0xFF then read_u32be else read_u32le

/-- Header sub-offset of a fused container: the first 32-bit entry of the offset table
that the pointer at `0x0C` designates. -/
def fused_head_offset (sf_h : STREAMFILE) : Int :=
  fused_read sf_h ((fused_read sf_h 0x0C sf_h : Int) + 0x00) sf_h

/-- Body sub-offset of a fused container: the second 32-bit entry of that table. -/
def fused_body_offset (sf_h : STREAMFILE) : Int :=
  fused_read sf_h ((fused_read sf_h 0x0C sf_h : Int) + 0x04) sf_h

/-- Stream offset declared in the record that index `t` selects, for the variant whose tag
is at `offset`: the 32-bit LE field at `E + 0x10` of the `t`-th KWB2 sub-entry (at the
offset `E` the parser forms); the
32-bit LE field at `+0x00` of the `t`-th 0x1C-byte K4HD record (records start `0x20`
into the PPVA table); the 32-bit BE field at `+0x04` of the `t`-th 0x40-byte SDWi
record (records start `0x10` into the Smpl table). -/
def declared_stream_offset (sf_h : STREAMFILE) (offset : Int) (t : Int) : Int :=
  if read_u32be (offset + 0x00) sf_h = 0x4B574232 ∨
      read_u32be (offset + 0x00) sf_h = 0x4B57424E then
    match (kwb2_walk offset sf_h)[(t - 1).toNat]? with
    | some E => read_u32le (E + 0x10) sf_h
    | none => 0
  else if read_u32be (offset + 0x00) sf_h = 0x4B344844 then
    read_u32le ((read_u16le (offset + 0x18) sf_h : Int) + offset + 0x20 + (t - 1) * 0x1C + 0x00)
      sf_h
  else
    read_u32be ((read_u32be (offset + 0x28) sf_h : Int) + offset + 0x10 + (t - 1) * 0x40 + 0x04)
      sf_h

/-- Number of subsongs the table at `offset` declares, by variant tag: the KWB2 count;
the 32-bit LE field at `+0x14` of the K4HD PPVA table plus one (in 32 bits); the
32-bit LE field at `+0x0C` of the SDWi Smpl table; none for any other tag. -/
def variant_total_subsongs (sf_h : STREAMFILE) (offset : Int) : Int :=
  if read_u32be (offset + 0x00) sf_h = 0x4B574232 ∨
      read_u32be (offset + 0x00) sf_h = 0x4B57424E then
    (kwb2_subsong_count offset sf_h : Int)
  else if read_u32be (offset + 0x00) sf_h = 0x4B344844 then
    (((read_u32le ((read_u16le (offset + 0x18) sf_h : Int) + offset + 0x14) sf_h + 1) % 2 ^ 32
      : Nat) : Int)
  else if read_u32be (offset + 0x00) sf_h = 0x53445769 then
    (read_u32le ((read_u32be (offset + 0x28) sf_h : Int) + offset + 0x0c) sf_h : Int)
  else 0

/-! ## Fixtures for concrete runs -/

/-- A segment or parent stream with the given sample count and channel count, not
looping, at its start. -/
def stream_of (num_samples channels : Int) : VGMSTREAM Unit :=
  { num_samples := num_samples, channels := channels, loop_flag := 0, current_sample := 0,
    samples_into_block := 0, rest := () }

/-- Stand-ins for the library functions: `vgmstream_samples_to_do` answers what is left
of the block, `vgmstream_do_loop` answers `looping`, a reset rewinds the
cursors and a render moves them on. -/
def stub_collaborators (looping : Int) : Collaborators Unit :=
  { vgmstream_do_loop := fun v => (looping, v)
    vgmstream_samples_to_do := fun samples_this_block _ v =>
      samples_this_block - v.samples_into_block
    reset_vgmstream := fun v => { v with current_sample := 0, samples_into_block := 0 }
    render_vgmstream := fun n v =>
      { v with current_sample := v.current_sample + n
               samples_into_block := v.samples_into_block + n } }

/-- An engine over the given segments, positioned on `current_segment`. -/
def engine_of (segments : List (VGMSTREAM Unit)) (current_segment loop_segment : Int) :
    aax_codec_data Unit :=
  { segment_count := segments.length, current_segment := current_segment,
    loop_segment := loop_segment, segments := segments.map some }

/-- Byte at `offset` of a file image given as chunks `(position, bytes)`; bytes outside
every chunk are 0. -/
def image_byte : List (Nat × List Nat) → Int → Nat
  | [], _ => 0
  | (pos, bytes) :: rest, offset =>
    if (pos : Int) ≤ offset ∧ offset < (pos : Int) + (bytes.length : Int) then
      bytes.getD (offset - (pos : Int)).toNat 0
    else image_byte rest offset

/-- A stream file over a file image: the readers assemble the bytes at the offset in
their byte order (the signed readers hand the same 32 bits to `read_s32le` and
`read_s32be`, which fold them into the `int32_t` range); the endianness probe answers
big-endian when the little-endian reading is the larger one. -/
def streamfile_of (image : List (Nat × List Nat)) : STREAMFILE :=
  { u8 := image_byte image
    u16le := fun o => image_byte image o + 2 ^ 8 * image_byte image (o + 1)
    u32le := fun o =>
      image_byte image o + 2 ^ 8 * image_byte image (o + 1) +
        2 ^ 16 * image_byte image (o + 2) + 2 ^ 24 * image_byte image (o + 3)
    u32be := fun o =>
      2 ^ 24 * image_byte image o + 2 ^ 16 * image_byte image (o + 1) +
        2 ^ 8 * image_byte image (o + 2) + image_byte image (o + 3)
    s32le := fun o =>
      ((image_byte image o + 2 ^ 8 * image_byte image (o + 1) +
        2 ^ 16 * image_byte image (o + 2) + 2 ^ 24 * image_byte image (o + 3) : Nat) : Int)
    s32be := fun o =>
      ((2 ^ 24 * image_byte image o + 2 ^ 16 * image_byte image (o + 1) +
        2 ^ 8 * image_byte image (o + 2) + image_byte image (o + 3) : Nat) : Int)
    guess_endianness32bit := fun o =>
      if image_byte image o + 2 ^ 8 * image_byte image (o + 1) +
          2 ^ 16 * image_byte image (o + 2) + 2 ^ 24 * image_byte image (o + 3) >
        2 ^ 24 * image_byte image o + 2 ^ 16 * image_byte image (o + 1) +
          2 ^ 8 * image_byte image (o + 2) + image_byte image (o + 3)
      then 1 else 0 }

/-- A fused container (`WHD1`) with endianness marker `0xFF`: header at `0x30`, body at
`0x100`, a KWB2 table with one sound record (at `0x5C`) holding one sub-entry (at
`0x88`): 44100 Hz, codec `0x00`, 2 channels, 1000 samples, stream offset `0x40`,
stream size 4000. -/
def fused_one_entry : STREAMFILE :=
  streamfile_of
   [(0x0, [0x57, 0x48, 0x44, 0x31]),
    (0x8, [0xFF]),
    (0xC, [0x00, 0x00, 0x00, 0x20]),
    (0x20, [0x00, 0x00, 0x00, 0x30, 0x00, 0x00, 0x01, 0x00]),
    (0x30, [0x57, 0x42, 0x48, 0x5F, 0x30, 0x30, 0x30, 0x30]),
    (0x3C, [0x4B, 0x57, 0x42, 0x32, 0x00, 0x32, 0x01, 0x00]),
    (0x54, [0x20, 0x00, 0x00, 0x00]),
    (0x5C, [0x00, 0x00, 0x2B, 0x01]),
    (0x88, [0x44, 0xAC, 0x00, 0x02, 0x00, 0x00, 0x00, 0x00, 0x00, 0x00, 0x00, 0x00,
            0xE8, 0x03, 0x00, 0x00, 0x40, 0x00, 0x00, 0x00, 0xA0, 0x0F, 0x00, 0x00]),
    (0x100, [0x57, 0x42, 0x44, 0x5F, 0x30, 0x30, 0x30, 0x30])]

/-- A little-endian fused container: header at `0x30`, body at `0x200`, a KWB2 table of
three slots. Slot 0 (record at `0x6C`, version 0) has two sub-entries, at `0x98` and
`0xE0`; slot 1 is zero; slot 2 (record at `0x13C`, version `0xC000`, start `0x30`, stride
`0x50`) has one sub-entry, at `0x16C`. Three subsongs in all. -/
def fused_three_entries : STREAMFILE :=
  streamfile_of
   [(0x0, [0x57, 0x48, 0x44, 0x31]),
    (0x8, [0x00]),
    (0xC, [0x20, 0x00, 0x00, 0x00]),
    (0x20, [0x30, 0x00, 0x00, 0x00, 0x00, 0x02, 0x00, 0x00]),
    (0x30, [0x5F, 0x48, 0x42, 0x57, 0x30, 0x30, 0x30, 0x30]),
    (0x3C, [0x4B, 0x57, 0x42, 0x32, 0x00, 0x32, 0x03, 0x00]),
    (0x54, [0x30, 0x00, 0x00, 0x00, 0x00, 0x00, 0x00, 0x00, 0x00, 0x01, 0x00, 0x00]),
    (0x6C, [0x00, 0x00, 0x2B, 0x02]),
    (0x98, [0x22, 0x56, 0x00, 0x01, 0x00, 0x00, 0x00, 0x00, 0x00, 0x00, 0x00, 0x00,
            0xF4, 0x01, 0x00, 0x00, 0x10, 0x00, 0x00, 0x00, 0xE8, 0x03, 0x00, 0x00]),
    (0xE0, [0x00, 0x7D, 0x10, 0x02, 0x46, 0x00, 0x00, 0x00, 0x00, 0x00, 0x00, 0x00,
            0xD0, 0x07, 0x00, 0x00, 0x00, 0x04, 0x00, 0x00, 0x00, 0x08, 0x00, 0x00]),
    (0x13C, [0x00, 0xC0, 0x32, 0x01]),
    (0x168, [0x30, 0x00, 0x50, 0x00]),
    (0x16C, [0x80, 0xBB, 0x90, 0x01, 0x00, 0x00, 0x00, 0x00, 0x00, 0x00, 0x00, 0x00,
             0xB8, 0x0B, 0x00, 0x00, 0x00, 0x10, 0x00, 0x00, 0x00, 0x20, 0x00, 0x00]),
    (0x200, [0x5F, 0x44, 0x42, 0x57, 0x30, 0x30, 0x30, 0x30])]

/-- A little-endian fused container: header at `0x30`, body at `0x200`, a K4HD table whose
PPVA sub-table (at `0x5C`) declares entry size `0x1C` and count field 2, hence three
records, at `0x7C`, `0x98` and `0xB4`; the third declares stream offset `0x3000`,
48000 Hz and stream size `0x1000`. -/
def fused_k4hd : STREAMFILE :=
  streamfile_of
   [(0x0, [0x57, 0x48, 0x44, 0x31]),
    (0x8, [0x00]),
    (0xC, [0x20, 0x00, 0x00, 0x00]),
    (0x20, [0x30, 0x00, 0x00, 0x00, 0x00, 0x02, 0x00, 0x00]),
    (0x30, [0x5F, 0x48, 0x42, 0x57, 0x30, 0x30, 0x30, 0x30]),
    (0x3C, [0x4B, 0x34, 0x48, 0x44]),
    (0x54, [0x20, 0x00]),
    (0x5C, [0x50, 0x50, 0x56, 0x41]),
    (0x64, [0x1C, 0x00, 0x00, 0x00]),
    (0x70, [0x02, 0x00, 0x00, 0x00]),
    (0x7C, [0x00, 0x00, 0x00, 0x00, 0x44, 0xAC, 0x00, 0x00, 0x00, 0x18, 0x00, 0x00,
            0xFF, 0xFF, 0xFF, 0xFF, 0x02, 0x00, 0x00, 0x00]),
    (0x98, [0x00, 0x18, 0x00, 0x00, 0x00, 0x7D, 0x00, 0x00, 0x00, 0x18, 0x00, 0x00,
            0xFF, 0xFF, 0xFF, 0xFF, 0x02, 0x00, 0x00, 0x00]),
    (0xB4, [0x00, 0x30, 0x00, 0x00, 0x80, 0xBB, 0x00, 0x00, 0x00, 0x10, 0x00, 0x00,
            0xFF, 0xFF, 0xFF, 0xFF, 0x02, 0x00, 0x00, 0x00]),
    (0x200, [0x5F, 0x44, 0x42, 0x57, 0x30, 0x30, 0x30, 0x30])]

/-- A big-endian fused container: header at `0x30`, body at `0x200`, an SDWi table whose
sub-table (at `0x7C`) starts with the four bytes `first_tag`, then `Smpl`, and declares
one record (at `0x8C`): stream offset `0x100`, 32000 Hz, stream size `0x800`. The body
holds the big-endian word 5000 at `0x30C`. -/
def fused_sdwi (first_tag : List Nat) : STREAMFILE :=
  streamfile_of
   [(0x0, [0x57, 0x48, 0x44, 0x31]),
    (0x8, [0xFF]),
    (0xC, [0x00, 0x00, 0x00, 0x20]),
    (0x20, [0x00, 0x00, 0x00, 0x30, 0x00, 0x00, 0x02, 0x00]),
    (0x30, [0x57, 0x42, 0x48, 0x5F, 0x30, 0x30, 0x30, 0x30]),
    (0x3C, [0x53, 0x44, 0x57, 0x69]),
    (0x64, [0x00, 0x00, 0x00, 0x40]),
    (0x7C, first_tag),
    (0x80, [0x53, 0x6D, 0x70, 0x6C]),
    (0x88, [0x01, 0x00, 0x00, 0x00]),
    (0x8C, [0x53, 0x53, 0x00, 0x00, 0x00, 0x00, 0x01, 0x00]),
    (0x9C, [0x00, 0x00, 0x7D, 0x00]),
    (0xB0, [0x00, 0x00, 0x08, 0x00]),
    (0x200, [0x57, 0x42, 0x44, 0x5F, 0x30, 0x30, 0x30, 0x30]),
    (0x30C, [0x00, 0x00, 0x13, 0x88])]

/-- The container `fused_one_entry` with the channel count of its sub-entry (byte `0x8B`)
set to 0. -/
def fused_no_channels : STREAMFILE :=
  streamfile_of
   [(0x0, [0x57, 0x48, 0x44, 0x31]),
    (0x8, [0xFF]),
    (0xC, [0x00, 0x00, 0x00, 0x20]),
    (0x20, [0x00, 0x00, 0x00, 0x30, 0x00, 0x00, 0x01, 0x00]),
    (0x30, [0x57, 0x42, 0x48, 0x5F, 0x30, 0x30, 0x30, 0x30]),
    (0x3C, [0x4B, 0x57, 0x42, 0x32, 0x00, 0x32, 0x01, 0x00]),
    (0x54, [0x20, 0x00, 0x00, 0x00]),
    (0x5C, [0x00, 0x00, 0x2B, 0x01]),
    (0x88, [0x44, 0xAC, 0x00, 0x00, 0x00, 0x00, 0x00, 0x00, 0x00, 0x00, 0x00, 0x00,
            0xE8, 0x03, 0x00, 0x00, 0x40, 0x00, 0x00, 0x00, 0xA0, 0x0F, 0x00, 0x00]),
    (0x100, [0x57, 0x42, 0x44, 0x5F, 0x30, 0x30, 0x30, 0x30])]

/-- The container `fused_one_entry` with the sample count of its sub-entry (bytes `0x94` to
`0x97`) set to `0xFFFFFFFF`. -/
def fused_wide_samples : STREAMFILE :=
  streamfile_of
   [(0x0, [0x57, 0x48, 0x44, 0x31]),
    (0x8, [0xFF]),
    (0xC, [0x00, 0x00, 0x00, 0x20]),
    (0x20, [0x00, 0x00, 0x00, 0x30, 0x00, 0x00, 0x01, 0x00]),
    (0x30, [0x57, 0x42, 0x48, 0x5F, 0x30, 0x30, 0x30, 0x30]),
    (0x3C, [0x4B, 0x57, 0x42, 0x32, 0x00, 0x32, 0x01, 0x00]),
    (0x54, [0x20, 0x00, 0x00, 0x00]),
    (0x5C, [0x00, 0x00, 0x2B, 0x01]),
    (0x88, [0x44, 0xAC, 0x00, 0x02, 0x00, 0x00, 0x00, 0x00, 0x00, 0x00, 0x00, 0x00,
            0xFF, 0xFF, 0xFF, 0xFF, 0x40, 0x00, 0x00, 0x00, 0xA0, 0x0F, 0x00, 0x00]),
    (0x100, [0x57, 0x42, 0x44, 0x5F, 0x30, 0x30, 0x30, 0x30])]

/-- A KWB2 table at `0x3C` whose only slot holds the offset `0x80000000`: the sound record
lies at `0x8000003C` (version 0, one sub-entry) and its sub-entry at `0x80000068`, with
codec id `0x90`, 1 channel, 32000 Hz. Bytes below `0x3C`, and all bytes at negative
offsets, are 0. -/
def far_record_table : STREAMFILE :=
  streamfile_of
   [(0x3C, [0x4B, 0x57, 0x42, 0x32, 0x00, 0x32, 0x01, 0x00]),
    (0x54, [0x00, 0x00, 0x00, 0x80]),
    (0x8000003C, [0x00, 0x00, 0x2B, 0x01]),
    (0x80000068, [0x00, 0x7D, 0x90, 0x01, 0x00, 0x00, 0x00, 0x00, 0x00, 0x00, 0x00, 0x00,
                  0xE8, 0x03, 0x00, 0x00, 0x40, 0x00, 0x00, 0x00, 0xA0, 0x0F, 0x00, 0x00])]

/-- The container `fused_k4hd` with the sample rate of its third record (bytes `0xB8` to
`0xBB`) set to `0xFFFFFFFF`. -/
def fused_k4hd_wide_rate : STREAMFILE :=
  streamfile_of
   [(0x0, [0x57, 0x48, 0x44, 0x31]),
    (0x8, [0x00]),
    (0xC, [0x20, 0x00, 0x00, 0x00]),
    (0x20, [0x30, 0x00, 0x00, 0x00, 0x00, 0x02, 0x00, 0x00]),
    (0x30, [0x5F, 0x48, 0x42, 0x57, 0x30, 0x30, 0x30, 0x30]),
    (0x3C, [0x4B, 0x34, 0x48, 0x44]),
    (0x54, [0x20, 0x00]),
    (0x5C, [0x50, 0x50, 0x56, 0x41]),
    (0x64, [0x1C, 0x00, 0x00, 0x00]),
    (0x70, [0x02, 0x00, 0x00, 0x00]),
    (0x7C, [0x00, 0x00, 0x00, 0x00, 0x44, 0xAC, 0x00, 0x00, 0x00, 0x18, 0x00, 0x00,
            0xFF, 0xFF, 0xFF, 0xFF, 0x02, 0x00, 0x00, 0x00]),
    (0x98, [0x00, 0x18, 0x00, 0x00, 0x00, 0x7D, 0x00, 0x00, 0x00, 0x18, 0x00, 0x00,
            0xFF, 0xFF, 0xFF, 0xFF, 0x02, 0x00, 0x00, 0x00]),
    (0xB4, [0x00, 0x30, 0x00, 0x00, 0xFF, 0xFF, 0xFF, 0xFF, 0x00, 0x10, 0x00, 0x00,
            0xFF, 0xFF, 0xFF, 0xFF, 0x02, 0x00, 0x00, 0x00]),
    (0x200, [0x5F, 0x44, 0x42, 0x57, 0x30, 0x30, 0x30, 0x30])]

/-- A big-endian fused container whose variant tag (at `0x3C`) is `SDsd`: header at `0x30`,
body at `0x100`, both magic pairs in place. -/
def fused_sdsd : STREAMFILE :=
  streamfile_of
   [(0x0, [0x57, 0x48, 0x44, 0x31]),
    (0x8, [0xFF]),
    (0xC, [0x00, 0x00, 0x00, 0x20]),
    (0x20, [0x00, 0x00, 0x00, 0x30, 0x00, 0x00, 0x01, 0x00]),
    (0x30, [0x57, 0x42, 0x48, 0x5F, 0x30, 0x30, 0x30, 0x30]),
    (0x3C, [0x53, 0x44, 0x73, 0x64]),
    (0x100, [0x57, 0x42, 0x44, 0x5F, 0x30, 0x30, 0x30, 0x30])]

/-- A freshly allocated stream: the channel count and loop flag given, all else zero. -/
def fresh_vgmstream (channels loop_flag : Int) : VGMSTREAM stream_fields :=
  { num_samples := 0, channels := channels, loop_flag := loop_flag, current_sample := 0,
    samples_into_block := 0,
    rest :=
      { meta_type := none, sample_rate := 0, stream_size := 0, num_streams := 0,
        coding_type := none, layout_type := none, interleave_block_size := 0,
        frame_size := 0, codec_data := none, dsp_tables := [] } }

/-- Stand-ins for the library functions of `init_vgmstream_kwb`: allocation, ATRAC9 setup
and the opening of the stream all succeed. -/
def stub_library : kwb_library :=
  { use_atrac9 := true
    allocate_vgmstream := fun channels loop_flag => some (fresh_vgmstream channels loop_flag)
    init_atrac9 := fun _ _ => true
    atrac9_bytes_to_samples_cfg := fun bytes _ => bytes
    vgmstream_open_stream := fun _ _ => true }

/-! ## Properties of the layout -/

theorem to_int32_of_range (x : Int) (h1 : -2147483648 ≤ x) (h2 : x ≤ 2147483647) :
    to_int32 x = x := by
  unfold to_int32
  omega

theorem to_int32_range (x : Int) : -2147483648 ≤ to_int32 x ∧ to_int32 x ≤ 2147483647 := by
  unfold to_int32
  omega

theorem to_int32_add (x y : Int) : to_int32 (to_int32 x + y) = to_int32 (x + y) := by
  unfold to_int32
  omega

/-- C5. With both allocations succeeding, `init_layout_aax` returns an engine exactly
when `1 ≤ segment_count ≤ 255`. Whenever it returns null no segment array has
been allocated (and, allocation succeeding, nothing has been allocated at
all). A returned engine has `segment_count` equal to the argument,
`current_segment = 0` and an array of exactly `segment_count` slots, all null. -/
theorem init_layout_aax_contract (σ : Type) (segment_count : Int) :
    ((init_layout_aax σ segment_count true true).1.isSome ↔
        (1 ≤ segment_count ∧ segment_count ≤ 255)) ∧
    (∀ data_ok segments_ok : Bool,
        (init_layout_aax σ segment_count data_ok segments_ok).1 = none →
        ∀ n : Int,
          Mem.calloc_segments n ∉ (init_layout_aax σ segment_count data_ok segments_ok).2) ∧
    ((init_layout_aax σ segment_count true true).1 = none →
        (init_layout_aax σ segment_count true true).2 = []) ∧
    (∀ data : aax_codec_data σ, (init_layout_aax σ segment_count true true).1 = some data →
        data.segment_count = segment_count ∧ data.current_segment = 0 ∧
        (data.segments.length : Int) = segment_count ∧
        ∀ slot ∈ data.segments, slot = none) := by
  refine ⟨?_, ?_, ?_, ?_⟩
  · unfold init_layout_aax
    split_ifs with h <;> simp at * <;> omega
  · intro data_ok segments_ok
    unfold init_layout_aax
    split_ifs <;> simp [free_layout_aax]
  · unfold init_layout_aax
    split_ifs <;> simp [free_layout_aax] at *
  · intro data
    unfold init_layout_aax
    split_ifs with h <;> simp at *
    intro hd
    subst hd
    refine ⟨rfl, rfl, ?_, ?_⟩
    · simp
      omega
    · intro slot hslot
      simp at hslot
      exact hslot.2

/-- Witness of C5: a count of 2 gives an engine with two null slots; 0 and 256 give
null and an empty heap log. -/
theorem init_layout_aax_contract_witness :
    ((2 : Int) = 2 ∧ (0 : Int) = 0 ∧ ((2 : Nat) : Int) = 2 ∧
        ∀ slot ∈ [(none : Option (VGMSTREAM Unit)), none], slot = none) ∧
    (init_layout_aax Unit 0 true true).2 = [] ∧
    (init_layout_aax Unit 256 true true).2 = [] :=
  ⟨(init_layout_aax_contract Unit 2).2.2.2
      { segment_count := 2, current_segment := 0, loop_segment := 0, segments := [none, none] }
      (by decide),
   (init_layout_aax_contract Unit 0).2.2.1 (by decide),
   (init_layout_aax_contract Unit 256).2.2.1 (by decide)⟩

theorem segment_at_append {σ : Type} (data : aax_codec_data σ)
    (pre post : List (Option (VGMSTREAM σ))) (v : VGMSTREAM σ)
    (h : data.segments = pre ++ some v :: post) :
    segment_at data (pre.length : Int) = some v := by
  unfold segment_at
  rw [h, List.getElem?_append_right (by simp)]
  simp

theorem set_segment_append {σ : Type} (data : aax_codec_data σ)
    (pre post : List (Option (VGMSTREAM σ))) (v w : VGMSTREAM σ)
    (h : data.segments = pre ++ some v :: post) :
    set_segment data (pre.length : Int) w =
      { data with segments := (pre ++ [some w]) ++ post } := by
  unfold set_segment
  simp [h]

theorem reset_segments_spec {σ : Type} (c : Collaborators σ) :
    ∀ (todo : List (VGMSTREAM σ)) (pre : List (Option (VGMSTREAM σ)))
      (data : aax_codec_data σ) (calls : List Call),
      data.segments = pre ++ todo.map some →
      reset_segments c todo.length pre.length data calls =
        some ({ data with
                segments := pre ++ todo.map (fun v => some (c.reset_vgmstream v)) },
              calls ++ (List.range' pre.length todo.length).map
                (fun (i : Nat) => Call.reset (i : Int))) := by
  intro todo
  induction todo with
  | nil =>
    intro pre data calls h
    cases data
    simp_all [reset_segments]
  | cons v rest ih =>
    intro pre data calls h
    simp only [List.length_cons, reset_segments]
    have h1 : data.segments = pre ++ some v :: rest.map some := by simpa using h
    rw [segment_at_append data pre _ v h1]
    simp only
    rw [set_segment_append data pre _ v _ h1]
    have := ih (pre ++ [some (c.reset_vgmstream v)])
      { data with segments := (pre ++ [some (c.reset_vgmstream v)]) ++ rest.map some }
      (calls ++ [Call.reset (pre.length : Int)]) rfl
    simp only [List.length_append, List.length_singleton] at this
    rw [this]
    simp [List.range'_succ]

/-- C6. On an engine whose `segment_count` slots all hold a segment, whatever
`current_segment` and the state of each segment, `reset_layout_aax` calls
`reset_vgmstream` on the segments `0 .. segment_count-1` once each, in that order,
and leaves `current_segment = 0`; `segment_count` and `loop_segment` keep their values
and every slot still holds its (now reset) segment. -/
theorem reset_layout_aax_contract {σ : Type} (c : Collaborators σ) (data : aax_codec_data σ)
    (segs : List (VGMSTREAM σ)) (hsegs : data.segments = segs.map some)
    (hcount : data.segment_count = (segs.length : Int)) :
    reset_layout_aax c data =
      some ({ segment_count := data.segment_count, current_segment := 0,
              loop_segment := data.loop_segment,
              segments := segs.map (fun v => some (c.reset_vgmstream v)) },
            (List.range segs.length).map (fun (i : Nat) => Call.reset (i : Int))) := by
  unfold reset_layout_aax
  have := reset_segments_spec c segs [] { data with current_segment := 0 } []
    (by simpa using hsegs)
  have hn : data.segment_count.toNat = segs.length := by rw [hcount]; simp
  simp only [List.length_nil] at this
  rw [hn, this]
  simp [List.range_eq_range']

/-- Witness of C6: an engine of two segments, positioned on the second, whose segments
have been played into. -/
theorem reset_layout_aax_contract_witness :
    reset_layout_aax (stub_collaborators 0)
        { segment_count := 2, current_segment := 1, loop_segment := 1,
          segments := [{ stream_of 100 2 with current_sample := 100, samples_into_block := 100 },
            { stream_of 100 1 with current_sample := 7, samples_into_block := 7 }].map some } =
      some ({ segment_count := 2, current_segment := 0, loop_segment := 1,
              segments := [some (stream_of 100 2), some (stream_of 100 1)] },
            [Call.reset 0, Call.reset 1]) :=
  reset_layout_aax_contract (stub_collaborators 0)
    { segment_count := 2, current_segment := 1, loop_segment := 1,
      segments := [{ stream_of 100 2 with current_sample := 100, samples_into_block := 100 },
        { stream_of 100 1 with current_sample := 7, samples_into_block := 7 }].map some }
    [{ stream_of 100 2 with current_sample := 100, samples_into_block := 100 },
      { stream_of 100 1 with current_sample := 7, samples_into_block := 7 }] rfl rfl

theorem loop_pass_is_transition {σ : Type} (c : Collaborators σ) (sample_count : Int)
    (s : RenderState σ) (cur tgt : VGMSTREAM σ)
    (hflag : s.vgmstream.loop_flag ≠ 0)
    (hloop : (c.vgmstream_do_loop s.vgmstream).1 ≠ 0)
    (hcur : segment_at s.data s.data.current_segment = some cur)
    (htgt : segment_at s.data s.data.loop_segment = some tgt) :
    render_iteration c sample_count s =
      Step.next
        { samples_written := s.samples_written
          vgmstream := { (c.vgmstream_do_loop s.vgmstream).2 with samples_into_block := 0 }
          data :=
            { segment_count := s.data.segment_count
              current_segment := s.data.loop_segment
              loop_segment := s.data.loop_segment
              segments :=
                s.data.segments.set s.data.loop_segment.toNat (some (c.reset_vgmstream tgt)) }
          calls := s.calls ++ [Call.reset s.data.loop_segment] } := by
  have htgt1 : segment_at { s.data with current_segment := s.data.loop_segment }
      s.data.loop_segment = some tgt := by
    simpa [segment_at] using htgt
  unfold render_iteration
  rw [hcur]
  simp only [if_pos hflag, if_pos hloop]
  unfold loop_transition
  simp only [htgt1]
  rfl

/-- C4. In a state whose current and loop-target handles point at segments, if the
parent stream has `loop_flag` set and `vgmstream_do_loop` answers true, the pass
through the loop body is the Loop transition: `current_segment` becomes
`loop_segment`, `reset_vgmstream` is called on `segments[loop_segment]` (and on nothing
else), the parent's `samples_into_block` becomes 0, `samples_written` is unchanged
and no render is delegated; while samples are owed, the run continues from
exactly that state. -/
theorem render_iteration_loop {σ : Type} (c : Collaborators σ) (sample_count : Int)
    (s : RenderState σ) (cur tgt : VGMSTREAM σ)
    (hflag : s.vgmstream.loop_flag ≠ 0)
    (hloop : (c.vgmstream_do_loop s.vgmstream).1 ≠ 0)
    (hcur : segment_at s.data s.data.current_segment = some cur)
    (htgt : segment_at s.data s.data.loop_segment = some tgt) :
    render_iteration c sample_count s =
      Step.next
        { samples_written := s.samples_written
          vgmstream := { (c.vgmstream_do_loop s.vgmstream).2 with samples_into_block := 0 }
          data :=
            { segment_count := s.data.segment_count
              current_segment := s.data.loop_segment
              loop_segment := s.data.loop_segment
              segments :=
                s.data.segments.set s.data.loop_segment.toNat (some (c.reset_vgmstream tgt)) }
          calls := s.calls ++ [Call.reset s.data.loop_segment] } ∧
    (s.samples_written < sample_count → ∀ fuel : Nat,
      render_loop c sample_count (fuel + 1) s =
        render_loop c sample_count fuel
          { samples_written := s.samples_written
            vgmstream := { (c.vgmstream_do_loop s.vgmstream).2 with samples_into_block := 0 }
            data :=
              { segment_count := s.data.segment_count
                current_segment := s.data.loop_segment
                loop_segment := s.data.loop_segment
                segments :=
                  s.data.segments.set s.data.loop_segment.toNat
                    (some (c.reset_vgmstream tgt)) }
            calls := s.calls ++ [Call.reset s.data.loop_segment] }) := by
  have hstep := loop_pass_is_transition c sample_count s cur tgt hflag hloop hcur htgt
  refine ⟨hstep, ?_⟩
  intro hlt fuel
  rw [render_loop, if_pos hlt, hstep]

/-- Witness of C4: `loop_segment = 0`, `current_segment = 1`, loop condition true; the first
pass of a request for 10 samples. -/
theorem render_iteration_loop_witness :
    render_iteration (stub_collaborators 1) 10
        { samples_written := 0
          vgmstream := { stream_of 200 2 with loop_flag := 1, samples_into_block := 40 }
          data := engine_of [{ stream_of 100 2 with current_sample := 100 }, stream_of 100 2] 1 0
          calls := [] } =
      Step.next
        { samples_written := 0
          vgmstream := { stream_of 200 2 with loop_flag := 1, samples_into_block := 0 }
          data := engine_of [stream_of 100 2, stream_of 100 2] 0 0
          calls := [Call.reset 0] } :=
  (render_iteration_loop (stub_collaborators 1) 10
    { samples_written := 0
      vgmstream := { stream_of 200 2 with loop_flag := 1, samples_into_block := 40 }
      data := engine_of [{ stream_of 100 2 with current_sample := 100 }, stream_of 100 2] 1 0
      calls := [] }
    (stream_of 100 2) { stream_of 100 2 with current_sample := 100 }
    (by decide) (by decide) (by decide) (by decide)).1

/-- C3 (failing input). Two segments of 100 samples, no loop, a request of 250: after
200 samples the Advance transition raises `current_segment` to 2, which equals
`segment_count`, and the run ends at the read of `segments[2]`. -/
theorem render_vgmstream_aax_advance_past_last :
    render_vgmstream_aax (stub_collaborators 0) 5 250 (stream_of 200 2)
        (engine_of [stream_of 100 2, stream_of 100 2] 0 0) =
      Run.fault
        { samples_written := 200
          vgmstream := { stream_of 200 2 with current_sample := 200, samples_into_block := 100 }
          data :=
            { segment_count := 2, current_segment := 2, loop_segment := 0
              segments :=
                [some { stream_of 100 2 with current_sample := 100, samples_into_block := 100 },
                 some { stream_of 100 2 with current_sample := 100, samples_into_block := 100 }] }
          calls := [Call.render 0 0 100, Call.reset 1, Call.render 1 200 100] } := by
  decide

theorem reset_segments_counters {σ : Type} (c : Collaborators σ) :
    ∀ (n i : Nat) (data d1 : aax_codec_data σ) (calls calls1 : List Call),
      reset_segments c n i data calls = some (d1, calls1) →
      d1.segment_count = data.segment_count ∧ d1.current_segment = data.current_segment ∧
      d1.loop_segment = data.loop_segment := by
  intro n
  induction n with
  | zero =>
    intro i data d1 calls calls1 h
    simp only [reset_segments, Option.some.injEq, Prod.mk.injEq] at h
    rw [h.1]
    exact ⟨rfl, rfl, rfl⟩
  | succ n ih =>
    intro i data d1 calls calls1 h
    rw [reset_segments] at h
    split at h
    · exact absurd h (by simp)
    · exact ih _ (set_segment data _ _) _ _ _ h

/-- Where the range of `current_segment` is kept: a successful `init_layout_aax` establishes
`0 ≤ current_segment < segment_count`; `reset_layout_aax` keeps it; the Loop transition
keeps it when `loop_segment` is itself in range; the Advance transition keeps it
when the segment left is not the last one. -/
theorem current_segment_in_range {σ : Type} (c : Collaborators σ) :
    (∀ (n : Int) (a b : Bool) (data : aax_codec_data σ),
      (init_layout_aax σ n a b).1 = some data →
      0 ≤ data.current_segment ∧ data.current_segment < data.segment_count) ∧
    (∀ (data d1 : aax_codec_data σ) (calls : List Call),
      0 ≤ data.current_segment ∧ data.current_segment < data.segment_count →
      reset_layout_aax c data = some (d1, calls) →
      0 ≤ d1.current_segment ∧ d1.current_segment < d1.segment_count) ∧
    (∀ (s s1 : RenderState σ) (v : VGMSTREAM σ),
      0 ≤ s.data.loop_segment ∧ s.data.loop_segment < s.data.segment_count →
      loop_transition c s v = Step.next s1 →
      0 ≤ s1.data.current_segment ∧ s1.data.current_segment < s1.data.segment_count) ∧
    (∀ (s s1 : RenderState σ) (v : VGMSTREAM σ),
      0 ≤ s.data.current_segment ∧ s.data.current_segment + 1 < s.data.segment_count →
      advance_transition c s v = Step.next s1 →
      0 ≤ s1.data.current_segment ∧ s1.data.current_segment < s1.data.segment_count) := by
  refine ⟨?_, ?_, ?_, ?_⟩
  · intro n a b data h
    unfold init_layout_aax at h
    split_ifs at h with h1 h2 h3
    all_goals simp at h
    subst h
    simp only [not_or, not_le, not_lt] at h1
    exact ⟨le_refl _, h1.1⟩
  · intro data d1 calls hinv h
    unfold reset_layout_aax at h
    obtain ⟨e1, e2, _⟩ := reset_segments_counters c _ _ _ _ _ _ h
    rw [e1, e2]
    simp only
    omega
  · intro s s1 v hinv h
    unfold loop_transition at h
    simp only at h
    split at h
    · exact absurd h (by simp)
    · injection h with h
      subst h
      exact hinv
  · intro s s1 v hinv h
    unfold advance_transition at h
    simp only at h
    split at h
    · exact absurd h (by simp)
    · rename_i seg hseg
      injection h with h
      subst h
      have h0 : 0 ≤ to_int32 (s.data.current_segment + 1) := by
        by_contra hneg
        simp [segment_at, hneg] at hseg
      have h1 : to_int32 (s.data.current_segment + 1) ≤ s.data.current_segment + 1 := by
        unfold to_int32
        omega
      simp only [set_segment]
      omega

/-! ### Sequential play without loop -/

theorem render_iteration_render {σ : Type} (c : Collaborators σ)
    (hs : ∀ (b f : Int) (v : VGMSTREAM σ), c.vgmstream_samples_to_do b f v = b - v.samples_into_block)
    (N : Int) (s : RenderState σ) (cur : VGMSTREAM σ) (take : Int)
    (hflag : s.vgmstream.loop_flag = 0)
    (hcur : segment_at s.data s.data.current_segment = some cur)
    (hleft : 0 ≤ cur.num_samples - s.vgmstream.samples_into_block ∧
      cur.num_samples - s.vgmstream.samples_into_block ≤ 2147483647 - N)
    (hsw : 0 ≤ s.samples_written ∧ s.samples_written < N)
    (hcs : -2147483648 ≤ s.vgmstream.current_sample ∧
      s.vgmstream.current_sample + (N - s.samples_written) ≤ 2147483647)
    (hinto : 0 ≤ s.vgmstream.samples_into_block ∧ cur.num_samples ≤ 2147483647)
    (htake : take =
      if s.samples_written + (cur.num_samples - s.vgmstream.samples_into_block) > N then
        N - s.samples_written
      else cur.num_samples - s.vgmstream.samples_into_block)
    (hnz : take ≠ 0) :
    render_iteration c N s =
      Step.next
        { samples_written := s.samples_written + take
          vgmstream :=
            { s.vgmstream with
              current_sample := s.vgmstream.current_sample + take
              samples_into_block := s.vgmstream.samples_into_block + take }
          data := set_segment s.data s.data.current_segment (c.render_vgmstream take cur)
          calls := s.calls ++
            [Call.render s.data.current_segment
              (to_int32 (s.samples_written * cur.channels)) take] } := by
  have hl : (if s.vgmstream.loop_flag ≠ 0 then c.vgmstream_do_loop s.vgmstream
      else (0, s.vgmstream)) = (0, s.vgmstream) := by simp [hflag]
  have e1 : to_int32 (cur.num_samples - s.vgmstream.samples_into_block) =
      cur.num_samples - s.vgmstream.samples_into_block := by
    unfold to_int32; omega
  have e2 : to_int32 (s.samples_written +
      (cur.num_samples - s.vgmstream.samples_into_block)) =
      s.samples_written + (cur.num_samples - s.vgmstream.samples_into_block) := by
    unfold to_int32; omega
  have e3 : to_int32 (N - s.samples_written) = N - s.samples_written := by
    unfold to_int32; omega
  have hb : 0 < take ∧ take ≤ N - s.samples_written ∧
      take ≤ cur.num_samples - s.vgmstream.samples_into_block := by
    rw [htake] at hnz ⊢
    split <;> rename_i hc <;> simp only [hc, if_true, if_false] at hnz <;> omega
  have e4 : to_int32 (s.samples_written + take) = s.samples_written + take := by
    unfold to_int32; omega
  have e5 : to_int32 (s.vgmstream.current_sample + take) =
      s.vgmstream.current_sample + take := by
    unfold to_int32; omega
  have e6 : to_int32 (s.vgmstream.samples_into_block + take) =
      s.vgmstream.samples_into_block + take := by
    unfold to_int32; omega
  unfold render_iteration
  rw [hcur]
  simp only [hl, ne_eq, not_true_eq_false, if_false, hs, e1, e2, e3, ← htake, if_neg hnz,
    e4, e5, e6]

theorem render_iteration_advance {σ : Type} (c : Collaborators σ)
    (hs : ∀ (b f : Int) (v : VGMSTREAM σ), c.vgmstream_samples_to_do b f v = b - v.samples_into_block)
    (N : Int) (s : RenderState σ) (cur nxt : VGMSTREAM σ)
    (hflag : s.vgmstream.loop_flag = 0)
    (hcur : segment_at s.data s.data.current_segment = some cur)
    (hinto : s.vgmstream.samples_into_block = cur.num_samples)
    (hsw : 0 ≤ s.samples_written ∧ s.samples_written < N ∧ N ≤ 2147483647)
    (hidx : 0 ≤ s.data.current_segment ∧ s.data.current_segment < 2147483647)
    (hnxt : segment_at s.data (s.data.current_segment + 1) = some nxt) :
    render_iteration c N s =
      Step.next
        { samples_written := s.samples_written
          vgmstream := { s.vgmstream with samples_into_block := 0 }
          data :=
            { segment_count := s.data.segment_count
              current_segment := s.data.current_segment + 1
              loop_segment := s.data.loop_segment
              segments :=
                s.data.segments.set (s.data.current_segment + 1).toNat
                  (some (c.reset_vgmstream nxt)) }
          calls := s.calls ++ [Call.reset (s.data.current_segment + 1)] } := by
  have hnxt1 : segment_at { s.data with current_segment := s.data.current_segment + 1 }
      (s.data.current_segment + 1) = some nxt := by
    simpa [segment_at] using hnxt
  have hl : (if s.vgmstream.loop_flag ≠ 0 then c.vgmstream_do_loop s.vgmstream
      else (0, s.vgmstream)) = (0, s.vgmstream) := by simp [hflag]
  have e0 : to_int32 0 = 0 := by unfold to_int32; omega
  have e1 : to_int32 (s.samples_written + 0) = s.samples_written := by
    unfold to_int32; omega
  have e2 : ¬ s.samples_written > N := by omega
  have e3 : to_int32 (s.data.current_segment + 1) = s.data.current_segment + 1 := by
    unfold to_int32; omega
  unfold render_iteration
  rw [hcur]
  simp only [hl, ne_eq, not_true_eq_false, if_false, hs, hinto, sub_self, e0, e1, if_neg e2,
    if_true]
  unfold advance_transition
  simp only [e3, hnxt1]
  rfl

theorem total_samples_nonneg {σ : Type} (l : List (VGMSTREAM σ))
    (h : ∀ x ∈ l, 0 ≤ x.num_samples) : 0 ≤ total_samples (l.map geometry) := by
  induction l with
  | nil => simp [total_samples]
  | cons a l ih =>
    simp only [List.map_cons, geometry, total_samples]
    have h1 := h a (by simp)
    have h2 := ih (fun x hx => h x (by simp [hx]))
    simp only [geometry] at h2
    omega

theorem plays_from_end_nil {σ : Type} (c : Collaborators σ) (N : Int) :
    PlaysFromEnd c N ([] : List (VGMSTREAM σ)) := by
  intro pre cur fuel s _ _ _ _ _ hlt hle _ _ _ _ _ _
  simp [total_samples] at hle
  omega

theorem plays_from_end_cons {σ : Type} (c : Collaborators σ)
    (hs : ∀ (b f : Int) (v : VGMSTREAM σ), c.vgmstream_samples_to_do b f v = b - v.samples_into_block)
    (hg : ∀ v : VGMSTREAM σ, geometry (c.reset_vgmstream v) = geometry v)
    (N : Int) (nxt : VGMSTREAM σ) (post : List (VGMSTREAM σ))
    (hP : PlaysFromStart c N post) : PlaysFromEnd c N (nxt :: post) := by
  intro pre cur fuel s hseg hcs hflag hinto h0 hlt hle hnn hN hlen hcs0 hcs1 hfuel
  obtain ⟨f, rfl⟩ : ∃ f, fuel = f + 1 := ⟨fuel - 1, by omega⟩
  have hcur : segment_at s.data s.data.current_segment = some cur := by
    rw [hcs]
    exact segment_at_append _ pre _ cur hseg
  have hseg1 : s.data.segments = (pre ++ [some cur]) ++ some nxt :: post.map some := by
    simpa using hseg
  have hnxt : segment_at s.data (s.data.current_segment + 1) = some nxt := by
    have := segment_at_append _ (pre ++ [some cur]) _ nxt hseg1
    rw [hcs]
    simpa using this
  have hlen1 : (pre.length : Int) + ((post.length : Int) + 1) < 2147483647 := by
    simpa using hlen
  rw [render_loop, if_pos hlt, render_iteration_advance c hs N s cur nxt hflag hcur hinto
    ⟨h0, hlt, hN⟩ (by rw [hcs]; omega) hnxt]
  simp only
  have hset : s.data.segments.set (s.data.current_segment + 1).toNat
      (some (c.reset_vgmstream nxt)) =
      (pre ++ [some cur]) ++ some (c.reset_vgmstream nxt) :: post.map some := by
    have hi : (s.data.current_segment + 1).toNat = (pre ++ [some cur]).length := by
      rw [hcs]; simp
    rw [hi, hseg1, List.set_append_right _ _ (le_refl _)]
    simp
  obtain ⟨s1, hrun, hcalls, hw, hsamp⟩ := hP (pre ++ [some cur]) (c.reset_vgmstream nxt) f
    { samples_written := s.samples_written
      vgmstream := { s.vgmstream with samples_into_block := 0 }
      data :=
        { segment_count := s.data.segment_count
          current_segment := s.data.current_segment + 1
          loop_segment := s.data.loop_segment
          segments :=
            s.data.segments.set (s.data.current_segment + 1).toNat
              (some (c.reset_vgmstream nxt)) }
      calls := s.calls ++ [Call.reset (s.data.current_segment + 1)] }
    hset (by simp [hcs]) hflag rfl h0 hlt
    (by simpa [hg] using hle)
    (by
      intro x hx
      rcases List.mem_cons.mp hx with rfl | hx
      · have := congrArg Prod.fst (hg nxt)
        simp only [geometry] at this
        rw [this]
        exact hnn nxt (by simp)
      · exact hnn x (by simp [hx]))
    (by simp only [List.length_append, List.length_singleton]; push_cast; omega)
    hcs0 hcs1
    (by simp at hfuel ⊢; omega)
  refine ⟨s1, hrun, ?_, hw, ?_⟩
  · rw [hcalls]
    simp [hcs, hg]
  · rw [hsamp]

theorem render_loop_done {σ : Type} (c : Collaborators σ) (N : Int) (fuel : Nat)
    (s : RenderState σ) (h : ¬ s.samples_written < N) :
    render_loop c N fuel s = Run.returned s := by
  cases fuel with
  | zero => rw [render_loop, if_neg h]
  | succ k => rw [render_loop, if_neg h]

theorem plays_from_start_of_end {σ : Type} (c : Collaborators σ)
    (hs : ∀ (b f : Int) (v : VGMSTREAM σ), c.vgmstream_samples_to_do b f v = b - v.samples_into_block)
    (hg : ∀ (n : Int) (v : VGMSTREAM σ), geometry (c.render_vgmstream n v) = geometry v)
    (N : Int) (post : List (VGMSTREAM σ))
    (hQ : PlaysFromEnd c N post) : PlaysFromStart c N post := by
  intro pre cur fuel s hseg hcs hflag hinto h0 hlt hle hnn hlen hcs0 hcs1 hfuel
  have hn0 : 0 ≤ cur.num_samples := (hnn cur (by simp)).1
  have hn1 : cur.num_samples ≤ 2147483647 - N := (hnn cur (by simp)).2
  have hN : N ≤ 2147483647 := by omega
  have hnn1 : ∀ x ∈ post, 0 ≤ x.num_samples ∧ x.num_samples ≤ 2147483647 - N :=
    fun x hx => hnn x (by simp [hx])
  have hle1 : N - s.samples_written ≤ cur.num_samples + total_samples (post.map geometry) := by
    simpa [total_samples, geometry] using hle
  by_cases hn : cur.num_samples = 0
  · obtain ⟨s1, hrun, hcalls, hw, hsamp⟩ := hQ pre cur fuel s hseg hcs hflag
      (by rw [hinto, hn]) h0 hlt (by omega) hnn1 hN hlen hcs0 hcs1 (by omega)
    refine ⟨s1, hrun, ?_, hw, hsamp⟩
    rw [hcalls]
    have hmin : min (0 : Int) (N - s.samples_written) = 0 := by
      rw [min_eq_left]; omega
    have hne : ¬ (N - s.samples_written = 0) := by omega
    simp [schedule, geometry, hn, hmin, hne]
  · obtain ⟨f, rfl⟩ : ∃ f, fuel = f + 1 := ⟨fuel - 1, by omega⟩
    have hcur : segment_at s.data s.data.current_segment = some cur := by
      rw [hcs]
      exact segment_at_append _ pre _ cur hseg
    have htake : min cur.num_samples (N - s.samples_written) =
        if s.samples_written + (cur.num_samples - s.vgmstream.samples_into_block) > N then
          N - s.samples_written
        else cur.num_samples - s.vgmstream.samples_into_block := by
      rw [hinto, sub_zero]
      split
      · rw [min_eq_right]; omega
      · rw [min_eq_left]; omega
    have hnz : min cur.num_samples (N - s.samples_written) ≠ 0 := by
      rcases min_choice cur.num_samples (N - s.samples_written) with h | h <;> rw [h] <;> omega
    rw [render_loop, if_pos hlt,
      render_iteration_render c hs N s cur _ hflag hcur (by rw [hinto]; omega) ⟨h0, hlt⟩
        ⟨hcs0, hcs1⟩ (by rw [hinto]; omega) htake hnz]
    simp only
    have hset : (set_segment s.data s.data.current_segment
        (c.render_vgmstream (min cur.num_samples (N - s.samples_written)) cur)).segments =
        pre ++ some (c.render_vgmstream (min cur.num_samples (N - s.samples_written)) cur) ::
          post.map some := by
      rw [hcs, set_segment_append s.data pre _ cur _ hseg]
      simp
    by_cases hdone : N - s.samples_written ≤ cur.num_samples
    · have hmin : min cur.num_samples (N - s.samples_written) = N - s.samples_written :=
        min_eq_right hdone
      refine ⟨_, render_loop_done c N f _ (by simp only [hmin]; omega), ?_, ?_, ?_⟩
      · have hne : ¬ (N - s.samples_written = 0) := by omega
        simp [schedule, geometry, hmin, hcs, hne]
      · simp only [hmin]; omega
      · simp only [hmin]
    · have hmin : min cur.num_samples (N - s.samples_written) = cur.num_samples :=
        min_eq_left (by omega)
      have hgeo := hg cur.num_samples cur
      have hnum : (c.render_vgmstream cur.num_samples cur).num_samples = cur.num_samples := by
        have := congrArg Prod.fst hgeo
        simpa [geometry] using this
      rw [hmin] at hset ⊢
      obtain ⟨s1, hrun, hcalls, hw, hsamp⟩ := hQ pre (c.render_vgmstream cur.num_samples cur) f
        { samples_written := s.samples_written + cur.num_samples
          vgmstream :=
            { s.vgmstream with
              current_sample := s.vgmstream.current_sample + cur.num_samples
              samples_into_block := s.vgmstream.samples_into_block + cur.num_samples }
          data := set_segment s.data s.data.current_segment
            (c.render_vgmstream cur.num_samples cur)
          calls := s.calls ++
            [Call.render s.data.current_segment
              (to_int32 (s.samples_written * cur.channels)) cur.num_samples] }
        hset (by simpa [set_segment] using hcs) hflag
        (by simp only [hinto, hnum]; omega)
        (by simp only; omega) (by simp only; omega) (by simp only; omega) hnn1 hN hlen
        (by simp only; omega) (by simp only; omega) (by omega)
      refine ⟨s1, hrun, ?_, hw, ?_⟩
      · rw [hcalls]
        have hne : ¬ (N - s.samples_written - cur.num_samples = 0) := by omega
        have hsub : N - (s.samples_written + cur.num_samples) =
            N - s.samples_written - cur.num_samples := by omega
        simp [schedule, geometry, hmin, hcs, hn, hne, hsub]
      · rw [hsamp]
        simp only
        omega

theorem plays_from_start {σ : Type} (c : Collaborators σ)
    (hs : ∀ (b f : Int) (v : VGMSTREAM σ), c.vgmstream_samples_to_do b f v = b - v.samples_into_block)
    (hreset : ∀ v : VGMSTREAM σ, geometry (c.reset_vgmstream v) = geometry v)
    (hrender : ∀ (n : Int) (v : VGMSTREAM σ), geometry (c.render_vgmstream n v) = geometry v)
    (N : Int) (post : List (VGMSTREAM σ)) : PlaysFromStart c N post := by
  induction post with
  | nil => exact plays_from_start_of_end c hs hrender N [] (plays_from_end_nil c N)
  | cons nxt post ih =>
    exact plays_from_start_of_end c hs hrender N _ (plays_from_end_cons c hs hreset N nxt post ih)

theorem rendered_segments_schedule (l : List (Int × Int)) :
    ∀ (i : Nat) (written owed : Int),
      (∀ x ∈ rendered_segments (schedule i written owed l), (i : Int) ≤ x) ∧
      (rendered_segments (schedule i written owed l)).Pairwise (· < ·) := by
  induction l with
  | nil =>
    intro i written owed
    simp [schedule, rendered_segments]
  | cons a l ih =>
    intro i written owed
    obtain ⟨n, ch⟩ := a
    have h := ih (i + 1) (written + min n owed) (owed - min n owed)
    simp only [schedule]
    generalize min n owed = m at h ⊢
    have hi : ((i + 1 : Nat) : Int) = (i : Int) + 1 := by push_cast; rfl
    rw [hi] at h
    by_cases h1 : m = 0 <;> by_cases h2 : owed - m = 0
    · rw [if_pos h1, if_pos h2]
      simp [rendered_segments]
    · rw [if_pos h1, if_neg h2]
      simp only [List.nil_append, rendered_segments]
      refine ⟨fun x hx => ?_, h.2⟩
      have := h.1 x hx
      omega
    · rw [if_neg h1, if_pos h2]
      simp [rendered_segments]
    · rw [if_neg h1, if_neg h2]
      simp only [List.singleton_append, rendered_segments, List.mem_cons,
        List.pairwise_cons]
      refine ⟨fun x hx => ?_, fun x hx => ?_, h.2⟩
      · rcases hx with rfl | hx
        · exact le_refl _
        · have := h.1 x hx
          omega
      · have := h.1 x hx
        omega

/-- C2 (amended). Looping disabled, the engine on segment 0 with nothing played, every slot
holding a segment of `n_i` samples with `0 ≤ n_i` and `N + n_i ≤ INT_MAX`, fewer than
`INT_MAX` segments, the parent's `current_sample` an `int` with
`current_sample + N ≤ INT_MAX`, `vgmstream_samples_to_do` answering
`samples_this_block - samples_into_block`, resets and renders leaving the sample and
channel counts of a segment alone, and a request `0 < N ≤ n_0 + ... + n_(k-1)`:
with fuel for `2k` passes the function returns, having made exactly the calls of
`schedule` (from segment `i` a render of `min n_i owed` samples, then a reset of
segment `i + 1` exactly when samples are still owed), so the segments rendered
from appear in strictly increasing order; `samples_written` is `N` and the
parent's `current_sample` has grown by `N`. -/
theorem render_vgmstream_aax_sequential {σ : Type} (c : Collaborators σ)
    (segs : List (VGMSTREAM σ)) (vgmstream : VGMSTREAM σ) (data : aax_codec_data σ)
    (N : Int) (fuel : Nat)
    (hs : ∀ (b f : Int) (v : VGMSTREAM σ),
      c.vgmstream_samples_to_do b f v = b - v.samples_into_block)
    (hreset : ∀ v : VGMSTREAM σ, geometry (c.reset_vgmstream v) = geometry v)
    (hrender : ∀ (n : Int) (v : VGMSTREAM σ), geometry (c.render_vgmstream n v) = geometry v)
    (hflag : vgmstream.loop_flag = 0)
    (hinto : vgmstream.samples_into_block = 0)
    (hsegs : data.segments = segs.map some)
    (hcur : data.current_segment = 0)
    (hnn : ∀ x ∈ segs, 0 ≤ x.num_samples ∧ x.num_samples ≤ 2147483647 - N)
    (hlen : (segs.length : Int) < 2147483647)
    (hcs : -2147483648 ≤ vgmstream.current_sample ∧
      vgmstream.current_sample + N ≤ 2147483647)
    (hpos : 0 < N) (hle : N ≤ total_samples (segs.map geometry))
    (hfuel : 2 * segs.length ≤ fuel) :
    ∃ s : RenderState σ,
      render_vgmstream_aax c fuel N vgmstream data = Run.returned s ∧
      s.calls = schedule 0 0 N (segs.map geometry) ∧
      (rendered_segments s.calls).Pairwise (· < ·) ∧
      s.samples_written = N ∧
      s.vgmstream.current_sample = vgmstream.current_sample + N := by
  cases segs with
  | nil =>
    simp [total_samples] at hle
    omega
  | cons cur post =>
    obtain ⟨s, hrun, hcalls, hw, hsamp⟩ := plays_from_start c hs hreset hrender N post [] cur
      fuel { samples_written := 0, vgmstream := vgmstream, data := data, calls := [] }
      (by simpa using hsegs) (by simpa using hcur) hflag hinto (le_refl _) hpos
      (by simpa using hle) hnn
      (by simp only [List.length_cons, List.length_nil] at hlen ⊢; push_cast at hlen ⊢; omega)
      hcs.1 (by simpa using hcs.2)
      (by simp at hfuel ⊢; omega)
    have hcalls1 : s.calls = schedule 0 0 N ((cur :: post).map geometry) := by
      simpa using hcalls
    refine ⟨s, hrun, hcalls1, ?_, hw, ?_⟩
    · rw [hcalls1]
      exact (rendered_segments_schedule _ 0 0 N).2
    · simpa using hsamp

/-- Witness of C2: two segments of 100 samples and a request of 200 give 100 samples
from segment 0, an advance to segment 1, and 100 samples from segment 1. -/
theorem render_vgmstream_aax_sequential_witness :
    ∃ s : RenderState Unit,
      render_vgmstream_aax (stub_collaborators 0) 4 200 (stream_of 200 2)
          (engine_of [stream_of 100 2, stream_of 100 2] 0 0) = Run.returned s ∧
      s.calls = [Call.render 0 0 100, Call.reset 1, Call.render 1 200 100] ∧
      (rendered_segments s.calls).Pairwise (· < ·) ∧
      s.samples_written = 200 ∧
      s.vgmstream.current_sample = 0 + 200 :=
  render_vgmstream_aax_sequential (stub_collaborators 0) [stream_of 100 2, stream_of 100 2]
    (stream_of 200 2) (engine_of [stream_of 100 2, stream_of 100 2] 0 0) 200 4
    (fun _ _ _ => rfl) (fun _ => rfl) (fun _ _ => rfl) rfl rfl rfl rfl (by decide) (by decide)
    (by decide) (by decide) (by decide) (by decide)

/-- C2 (counterexample). Segments of 100 and 2147483647 samples, no loop, a request of
150, `vgmstream_samples_to_do` answering what is left of the block: on segment 1 the
`int` sum `100 + 2147483647` wraps below the request, the clamp is skipped and
2147483647 samples are taken from segment 1 where `min(n_1, owed)` is 50; the
parent's `current_sample` does not grow by 150 and the run ends at the read of
`segments[2]`. -/
theorem sequential_overflow_counterexample :
    render_vgmstream_aax (stub_collaborators 0) 4 150 (stream_of 200 2)
        (engine_of [stream_of 100 2, stream_of 2147483647 2] 0 0) =
      Run.fault
        { samples_written := -2147483549
          vgmstream :=
            { stream_of 200 2 with
              current_sample := -2147483549, samples_into_block := 2147483647 }
          data :=
            { segment_count := 2, current_segment := 2, loop_segment := 0
              segments :=
                [some { stream_of 100 2 with current_sample := 100, samples_into_block := 100 },
                 some { stream_of 2147483647 2 with
                        current_sample := 2147483647, samples_into_block := 2147483647 }] }
          calls := [Call.render 0 0 100, Call.reset 1, Call.render 1 200 2147483647] } ∧
    schedule 0 0 150 ([stream_of 100 2, stream_of 2147483647 2].map geometry) =
      [Call.render 0 0 100, Call.reset 1, Call.render 1 200 50] := by
  decide

/-! ## Properties of the KWB parser -/

theorem kwb2_subsounds_eq_scan (start size : Int) (sf_h : STREAMFILE) :
    ∀ (n j : Nat) (kwb : kwb_header),
      kwb2_subsounds start size sf_h n j kwb =
        kwb2_scan sf_h
          ((List.range' j n).map (fun (k : Nat) => to_int32 (start + (k : Int) * size))) kwb := by
  intro n
  induction n with
  | zero => intro j kwb; rfl
  | succ n ih =>
    intro j kwb
    simp only [kwb2_subsounds, kwb2_subsound, List.range'_succ, List.map_cons, kwb2_scan]
    by_cases h : to_int32 (kwb.total_subsongs + 1) ≠ kwb.target_subsong
    · simp only [if_pos h]
      exact ih (j + 1) _
    · simp only [if_neg h]
      cases kwb2_entry { kwb with total_subsongs := to_int32 (kwb.total_subsongs + 1) }
          (to_int32 (start + (j : Int) * size)) sf_h with
      | none => rfl
      | some k => exact ih (j + 1) k

theorem kwb2_scan_append (sf_h : STREAMFILE) :
    ∀ (l₁ l₂ : List Int) (kwb : kwb_header),
      kwb2_scan sf_h (l₁ ++ l₂) kwb = (kwb2_scan sf_h l₁ kwb).bind (kwb2_scan sf_h l₂) := by
  intro l₁
  induction l₁ with
  | nil => intro l₂ kwb; rfl
  | cons E rest ih =>
    intro l₂ kwb
    simp only [List.cons_append, kwb2_scan]
    by_cases h : to_int32 (kwb.total_subsongs + 1) ≠ kwb.target_subsong
    · simp only [if_pos h]
      exact ih l₂ _
    · simp only [if_neg h]
      cases kwb2_entry { kwb with total_subsongs := to_int32 (kwb.total_subsongs + 1) } E
          sf_h with
      | none => rfl
      | some k => exact ih l₂ k

theorem kwb2_sound_eq_scan (offset : Int) (sf_h : STREAMFILE) (i : Nat) (kwb : kwb_header) :
    kwb2_sound kwb offset i sf_h = kwb2_scan sf_h (kwb2_record_entries offset sf_h i) kwb := by
  unfold kwb2_sound kwb2_record_entries
  simp only
  by_cases h : read_u32le (offset + 0x18 + (i : Int) * 4) sf_h = 0
  · simp [h, kwb2_scan]
  · have h1 : ¬ ((read_u32le (offset + 0x18 + (i : Int) * 4) sf_h : Int) = 0) := by
      exact_mod_cast h
    have e : (read_u32le (offset + 0x18 + (i : Int) * 4) sf_h : Int) + offset =
        offset + (read_u32le (offset + 0x18 + (i : Int) * 4) sf_h : Int) := add_comm _ _
    rw [if_neg h1, if_neg h, kwb2_subsounds_eq_scan, List.range_eq_range']
    simp only [e, add_zero]

theorem kwb2_sounds_eq_scan (offset : Int) (sf_h : STREAMFILE) :
    ∀ (n i : Nat) (kwb : kwb_header),
      kwb2_sounds offset sf_h n i kwb =
        kwb2_scan sf_h ((List.range' i n).flatMap (kwb2_record_entries offset sf_h)) kwb := by
  intro n
  induction n with
  | zero => intro i kwb; rfl
  | succ n ih =>
    intro i kwb
    simp only [kwb2_sounds, List.range'_succ, List.flatMap_cons, kwb2_scan_append,
      kwb2_sound_eq_scan]
    cases kwb2_scan sf_h (kwb2_record_entries offset sf_h i) kwb with
    | none => rfl
    | some k => exact ih (i + 1) k

theorem kwb2_entry_some (kwb k : kwb_header) (E : Int) (sf_h : STREAMFILE)
    (h : kwb2_entry kwb E sf_h = some k) :
    k.total_subsongs = kwb.total_subsongs ∧ k.target_subsong = kwb.target_subsong ∧
      kwb2_fields_at sf_h E k := by
  unfold kwb2_entry at h
  simp only at h
  split_ifs at h <;> simp only [Option.some.injEq] at h <;> subst h <;>
    simp [kwb2_fields_at]

/-- No pass of the scan writes the target. -/
theorem kwb2_scan_target (sf_h : STREAMFILE) :
    ∀ (l : List Int) (kwb d : kwb_header), kwb2_scan sf_h l kwb = some d →
      d.target_subsong = kwb.target_subsong := by
  intro l
  induction l with
  | nil =>
    intro kwb d h
    simp only [kwb2_scan, Option.some.injEq] at h
    subst h
    rfl
  | cons E rest ih =>
    intro kwb d h
    rw [kwb2_scan] at h
    by_cases hne : to_int32 (kwb.total_subsongs + 1) ≠ kwb.target_subsong
    · rw [if_pos hne] at h
      have := ih _ d h
      exact this
    · rw [if_neg hne] at h
      cases hent : kwb2_entry { kwb with total_subsongs := to_int32 (kwb.total_subsongs + 1) }
          E sf_h with
      | none => rw [hent] at h; exact absurd h (by simp)
      | some k =>
        rw [hent] at h
        simp only at h
        rw [ih k d h]
        exact (kwb2_entry_some _ k E sf_h hent).2.1

/-- Once the counter has reached the target, the rest of the table only counts, as long
as the counter stays an `int`. -/
theorem kwb2_scan_past (sf_h : STREAMFILE) :
    ∀ (l : List Int) (kwb : kwb_header), kwb.target_subsong ≤ kwb.total_subsongs →
      -2147483648 ≤ kwb.total_subsongs →
      kwb.total_subsongs + (l.length : Int) ≤ 2147483647 →
      kwb2_scan sf_h l kwb =
        some { kwb with total_subsongs := kwb.total_subsongs + (l.length : Int) } := by
  intro l
  induction l with
  | nil => intro kwb _ _ _; simp [kwb2_scan]
  | cons E rest ih =>
    intro kwb h hlo hhi
    simp only [List.length_cons, Nat.cast_add, Nat.cast_one] at hhi
    have e : to_int32 (kwb.total_subsongs + 1) = kwb.total_subsongs + 1 :=
      to_int32_of_range _ (by omega) (by omega)
    have hne : kwb.total_subsongs + 1 ≠ kwb.target_subsong := by omega
    rw [kwb2_scan, e, if_pos hne, ih _ (by simp only; omega) (by simp only; omega)
      (by simp only; omega)]
    simp only [List.length_cons, Nat.cast_add, Nat.cast_one, Option.some.injEq]
    congr 1
    omega

theorem kwb2_scan_spec (sf_h : STREAMFILE) :
    ∀ (l : List Int) (kwb d : kwb_header), kwb2_scan sf_h l kwb = some d →
      -2147483648 ≤ kwb.total_subsongs →
      kwb.total_subsongs + (l.length : Int) ≤ 2147483647 →
      d.target_subsong = kwb.target_subsong ∧
      d.total_subsongs = kwb.total_subsongs + (l.length : Int) ∧
      (kwb.total_subsongs < kwb.target_subsong →
        kwb.target_subsong ≤ kwb.total_subsongs + (l.length : Int) →
        ∃ E, l[(kwb.target_subsong - kwb.total_subsongs - 1).toNat]? = some E ∧
          kwb2_fields_at sf_h E d) := by
  intro l
  induction l with
  | nil =>
    intro kwb d h _ _
    simp only [kwb2_scan, Option.some.injEq] at h
    subst h
    refine ⟨rfl, by simp, ?_⟩
    intro h1 h2
    simp at h2
    omega
  | cons E rest ih =>
    intro kwb d h hlo hhi
    simp only [List.length_cons, Nat.cast_add, Nat.cast_one] at hhi
    have e : to_int32 (kwb.total_subsongs + 1) = kwb.total_subsongs + 1 :=
      to_int32_of_range _ (by omega) (by omega)
    rw [kwb2_scan, e] at h
    by_cases hne : kwb.total_subsongs + 1 ≠ kwb.target_subsong
    · rw [if_pos hne] at h
      obtain ⟨h1, h2, h3⟩ := ih _ d h (by simp only; omega) (by simp only; omega)
      simp only at h1 h2 h3
      refine ⟨h1, ?_, ?_⟩
      · rw [h2]; simp only [List.length_cons, Nat.cast_add, Nat.cast_one]; omega
      · intro hlt hle
        obtain ⟨E1, hE1, hf⟩ := h3 (by omega)
          (by simp only [List.length_cons, Nat.cast_add, Nat.cast_one] at hle; omega)
        refine ⟨E1, ?_, hf⟩
        have hidx : (kwb.target_subsong - kwb.total_subsongs - 1).toNat =
            (kwb.target_subsong - (kwb.total_subsongs + 1) - 1).toNat + 1 := by omega
        rw [hidx, List.getElem?_cons_succ]
        exact hE1
    · rw [if_neg hne] at h
      have heq : kwb.total_subsongs + 1 = kwb.target_subsong := by
        by_contra hcon; exact hne hcon
      cases hent : kwb2_entry { kwb with total_subsongs := kwb.total_subsongs + 1 } E sf_h with
      | none => rw [hent] at h; exact absurd h (by simp)
      | some k =>
        rw [hent] at h
        simp only at h
        obtain ⟨hk1, hk2, hk3⟩ := kwb2_entry_some _ k E sf_h hent
        simp only at hk1 hk2
        rw [kwb2_scan_past sf_h rest k (by omega) (by omega) (by omega)] at h
        simp only [Option.some.injEq] at h
        subst h
        refine ⟨hk2, ?_, ?_⟩
        · simp only [hk1, List.length_cons, Nat.cast_add, Nat.cast_one]; omega
        · intro _ _
          refine ⟨E, ?_, hk3⟩
          have hidx : (kwb.target_subsong - kwb.total_subsongs - 1).toNat = 0 := by omega
          rw [hidx]
          simp

theorem kwb2_walk_length (offset : Int) (sf_h : STREAMFILE) :
    (kwb2_walk offset sf_h).length = kwb2_subsong_count offset sf_h := by
  unfold kwb2_walk kwb2_subsong_count
  rw [List.length_flatMap]
  congr 1
  apply List.map_congr_left
  intro i _
  simp only [Function.comp, kwb2_record_entries]
  split_ifs <;> simp

/-- A table declares at most `65535 * 255` sub-entries, so the counter stays an `int`. -/
theorem kwb2_subsong_count_le (offset : Int) (sf_h : STREAMFILE) :
    kwb2_subsong_count offset sf_h ≤ 16711425 := by
  unfold kwb2_subsong_count
  have h1 := List.sum_le_card_nsmul
    ((List.range (read_u16le (offset + 0x06) sf_h)).map (fun (i : Nat) =>
      if read_u32le (offset + 0x18 + (i : Int) * 4) sf_h = 0 then 0
      else read_u8 (offset + read_u32le (offset + 0x18 + (i : Int) * 4) sf_h + 0x03) sf_h))
    255
    (by
      intro x hx
      simp only [List.mem_map, List.mem_range] at hx
      obtain ⟨i, _, rfl⟩ := hx
      split_ifs
      · omega
      · unfold read_u8
        omega)
  have h2 : read_u16le (offset + 0x06) sf_h ≤ 65535 := by
    unfold read_u16le
    omega
  simp only [List.length_map, List.length_range, smul_eq_mul] at h1
  nlinarith

/-- The offsets the parser forms are the plain sums, each held in an `int`. -/
theorem kwb2_walk_eq_plain (offset : Int) (sf_h : STREAMFILE) :
    kwb2_walk offset sf_h = (kwb2_plain_walk offset sf_h).map to_int32 := by
  unfold kwb2_walk kwb2_plain_walk
  rw [List.map_flatMap]
  congr 1
  funext i
  unfold kwb2_record_entries kwb2_plain_entries
  simp only
  split_ifs
  · rfl
  · simp only [List.map_map]
    apply List.map_congr_left
    intro j _
    simp only [Function.comp]
    exact to_int32_add _ _
  · simp only [List.map_map]
    apply List.map_congr_left
    intro j _
    simp only [Function.comp]
    exact to_int32_add _ _

theorem parse_type_kwb2_eq_scan (kwb : kwb_header) (offset : Int) (sf_h : STREAMFILE) :
    parse_type_kwb2 kwb offset sf_h =
      match kwb2_scan sf_h (kwb2_walk offset sf_h) kwb with
      | none => none
      | some kwb =>
        if kwb.target_subsong < 0 ∨ kwb.target_subsong > kwb.total_subsongs ∨
            kwb.total_subsongs < 1 then none
        else some kwb := by
  unfold parse_type_kwb2 kwb2_walk
  simp only [kwb2_sounds_eq_scan, List.range_eq_range']

/-- What a successful `parse_type_kwb2` on a header with `total_subsongs = 0` returns. -/
theorem parse_type_kwb2_spec (kwb d : kwb_header) (offset : Int) (sf_h : STREAMFILE)
    (h0 : kwb.total_subsongs = 0) (h : parse_type_kwb2 kwb offset sf_h = some d) :
    d.target_subsong = kwb.target_subsong ∧
    d.total_subsongs = (kwb2_subsong_count offset sf_h : Int) ∧
    0 ≤ kwb.target_subsong ∧ kwb.target_subsong ≤ d.total_subsongs ∧
    (1 ≤ kwb.target_subsong →
      ∃ E, (kwb2_walk offset sf_h)[(kwb.target_subsong - 1).toNat]? = some E ∧
        kwb2_fields_at sf_h E d) := by
  rw [parse_type_kwb2_eq_scan] at h
  have hb := kwb2_subsong_count_le offset sf_h
  cases hscan : kwb2_scan sf_h (kwb2_walk offset sf_h) kwb with
  | none => rw [hscan] at h; exact absurd h (by simp)
  | some k =>
    rw [hscan] at h
    simp only at h
    split_ifs at h with hbad
    simp only [Option.some.injEq] at h
    subst h
    obtain ⟨h1, h2, h3⟩ := kwb2_scan_spec sf_h _ kwb k hscan (by rw [h0]; norm_num)
      (by rw [h0, kwb2_walk_length]; omega)
    rw [h0, zero_add, kwb2_walk_length] at h2
    simp only [not_or, not_lt] at hbad
    refine ⟨h1, h2, by omega, by omega, ?_⟩
    intro ht
    have := h3 (by omega) (by rw [h0, zero_add, kwb2_walk_length]; omega)
    simpa [h0] using this

/-- C7 (amended). When `parse_type_kwb2`, entered with `total_subsongs = 0`, succeeds for a target
`t ≥ 1`, the `t`-th sub-entry of the walk (non-zero slots in table order, sub-entries
in order) exists; with `E` the offset the parser forms for it, which is the plain sum
`offset + slot + start + j * stride` held in an `int` (the sum itself whenever that fits
an `int`), the header holds `sample_rate`, `channels`, `block_size`, `stream_offset` and
`stream_size` as read at `E + 0x00`, `0x03`, `0x04`, `0x10` and `0x14`, and `num_samples` is
the 32-bit value at `E + 0x0C` held in an `int32_t` (the value itself whenever it is
below `2^31`). Nothing else bears on them: any other successful parse for the same
target whose `t`-th sub-entry lies at `E` and reads the same six values there yields
the same six fields. -/
theorem parse_type_kwb2_fields (kwb d : kwb_header) (offset : Int) (sf_h : STREAMFILE)
    (h0 : kwb.total_subsongs = 0) (ht : 1 ≤ kwb.target_subsong)
    (h : parse_type_kwb2 kwb offset sf_h = some d) :
    ∃ E, (kwb2_walk offset sf_h)[(kwb.target_subsong - 1).toNat]? = some E ∧
      ((kwb2_plain_walk offset sf_h)[(kwb.target_subsong - 1).toNat]?).map to_int32 = some E ∧
      (∀ P : Int, (kwb2_plain_walk offset sf_h)[(kwb.target_subsong - 1).toNat]? = some P →
        -2147483648 ≤ P → P ≤ 2147483647 → E = P) ∧
      kwb2_fields_at sf_h E d ∧
      (read_u32le (E + 0x0C) sf_h ≤ 2147483647 →
        d.num_samples = read_u32le (E + 0x0C) sf_h) ∧
      ∀ (sf1 : STREAMFILE) (kwb1 d1 : kwb_header) (offset1 : Int),
        kwb1.total_subsongs = 0 → kwb1.target_subsong = kwb.target_subsong →
        parse_type_kwb2 kwb1 offset1 sf1 = some d1 →
        (kwb2_walk offset1 sf1)[(kwb.target_subsong - 1).toNat]? = some E →
        read_u16le (E + 0x00) sf1 = read_u16le (E + 0x00) sf_h →
        read_u8 (E + 0x03) sf1 = read_u8 (E + 0x03) sf_h →
        read_u16le (E + 0x04) sf1 = read_u16le (E + 0x04) sf_h →
        read_u32le (E + 0x0C) sf1 = read_u32le (E + 0x0C) sf_h →
        read_u32le (E + 0x10) sf1 = read_u32le (E + 0x10) sf_h →
        read_u32le (E + 0x14) sf1 = read_u32le (E + 0x14) sf_h →
        d1.sample_rate = d.sample_rate ∧ d1.channels = d.channels ∧
        d1.block_size = d.block_size ∧ d1.num_samples = d.num_samples ∧
        d1.stream_offset = d.stream_offset ∧ d1.stream_size = d.stream_size := by
  obtain ⟨E, hE, hf⟩ := (parse_type_kwb2_spec kwb d offset sf_h h0 h).2.2.2.2 ht
  have hP : ((kwb2_plain_walk offset sf_h)[(kwb.target_subsong - 1).toNat]?).map to_int32 =
      some E := by
    rw [← List.getElem?_map, ← kwb2_walk_eq_plain]
    exact hE
  refine ⟨E, hE, hP, ?_, hf, ?_, ?_⟩
  · intro P hPw hlo hhi
    rw [hPw] at hP
    simp only [Option.map_some', Option.some.injEq] at hP
    rw [← hP]
    exact to_int32_of_range P hlo hhi
  · intro hlt
    rw [hf.2.2.2.1]
    exact to_int32_of_range _ (by omega) (by exact_mod_cast hlt)
  · intro sf1 kwb1 d1 offset1 h01 ht1 h1 hE1 e1 e2 e3 e4 e5 e6
    obtain ⟨E1, hE1', hf1⟩ := (parse_type_kwb2_spec kwb1 d1 offset1 sf1 h01 h1).2.2.2.2
      (by rw [ht1]; exact ht)
    rw [ht1, hE1] at hE1'
    cases hE1'
    obtain ⟨a1, a2, a3, a4, a5, a6⟩ := hf
    obtain ⟨b1, b2, b3, b4, b5, b6⟩ := hf1
    rw [a1, a2, a3, a4, a5, a6, b1, b2, b3, b4, b5, b6, e1, e2, e3, e4, e5, e6]
    exact ⟨rfl, rfl, rfl, rfl, rfl, rfl⟩

/-- Witness of C7 (amended): one record, one sub-entry (at `0x88`) with codec `0x00`, 2 channels,
44100 Hz, 1000 samples. -/
theorem parse_type_kwb2_fields_witness :
    ∃ E, (kwb2_walk 0x3C fused_one_entry)[((1 : Int) - 1).toNat]? = some E ∧
      kwb2_fields_at fused_one_entry E
        { kwb_request 1 with
          total_subsongs := 1, channels := 2, sample_rate := 44100, num_samples := 1000,
          stream_offset := 0x40, stream_size := 4000 } ∧
      E = 0x88 := by
  obtain ⟨E, hE, _, hP, hf, _⟩ := parse_type_kwb2_fields (kwb_request 1)
    { kwb_request 1 with
      total_subsongs := 1, channels := 2, sample_rate := 44100, num_samples := 1000,
      stream_offset := 0x40, stream_size := 4000 }
    0x3C fused_one_entry rfl (by decide) (by decide)
  exact ⟨E, hE, hf, hP 0x88 (by decide) (by decide) (by decide)⟩

/-- C7 (counterexample). On `fused_wide_samples` the sub-entry at `0x88` declares the sample
count `0xFFFFFFFF`, and the header holds `num_samples = -1`, not 4294967295. On
`far_record_table` the first sub-entry lies at `E = 0x80000068` and declares 32000 Hz and
1 channel there, yet the header holds `sample_rate = 0` and `channels = 0`: the parser
reads at the `int` that `E` wraps to. -/
theorem sample_count_narrowed_counterexample :
    ((kwb2_plain_walk 0x3C fused_wide_samples)[0]? = some 0x88 ∧
      read_u32le (0x88 + 0x0C) fused_wide_samples = 4294967295 ∧
      (parse_type_kwb2 (kwb_request 1) 0x3C fused_wide_samples).map
        (fun d => d.num_samples) = some (-1)) ∧
    ((kwb2_plain_walk 0x3C far_record_table)[0]? = some 0x80000068 ∧
      read_u16le (0x80000068 + 0x00) far_record_table = 32000 ∧
      read_u8 (0x80000068 + 0x03) far_record_table = 1 ∧
      (parse_type_kwb2 (kwb_request 1) 0x3C far_record_table).map
        (fun d => (d.sample_rate, d.channels)) = some (0, 0)) := by
  decide

/-- C8. When `parse_type_kwb2`, entered with `total_subsongs = 0`, succeeds, `total_subsongs`
is the sum over the table slots `i < sounds` with a non-zero offset of the 8-bit count
at `record + 0x03` (zero slots add nothing); any other successful parse of the
same table, whatever its target, reports the same total. -/
theorem parse_type_kwb2_total (kwb d : kwb_header) (offset : Int) (sf_h : STREAMFILE)
    (h0 : kwb.total_subsongs = 0) (h : parse_type_kwb2 kwb offset sf_h = some d) :
    d.total_subsongs = (kwb2_subsong_count offset sf_h : Int) ∧
    ∀ (kwb1 d1 : kwb_header), kwb1.total_subsongs = 0 →
      parse_type_kwb2 kwb1 offset sf_h = some d1 → d1.total_subsongs = d.total_subsongs := by
  have h1 := (parse_type_kwb2_spec kwb d offset sf_h h0 h).2.1
  refine ⟨h1, ?_⟩
  intro kwb1 d1 h01 hp
  rw [h1, (parse_type_kwb2_spec kwb1 d1 offset sf_h h01 hp).2.1]

/-- Witness of C8: three slots holding 2, none (zero slot) and 1 sub-entries; target 2. -/
theorem parse_type_kwb2_total_witness :
    (3 : Int) = (kwb2_subsong_count 0x3C fused_three_entries : Int) ∧
    ∀ (kwb1 d1 : kwb_header), kwb1.total_subsongs = 0 →
      parse_type_kwb2 kwb1 0x3C fused_three_entries = some d1 → d1.total_subsongs = 3 :=
  parse_type_kwb2_total (kwb_request 2)
    { kwb_request 2 with
      total_subsongs := 3, codec := kwb_codec.MSADPCM, channels := 2, sample_rate := 32000,
      num_samples := 2000, block_size := 70, stream_offset := 0x400, stream_size := 0x800 }
    0x3C fused_three_entries rfl (by decide)

/-- What a successful `parse_type_k4hd` has checked and returns. -/
theorem parse_type_k4hd_spec (kwb d : kwb_header) (offset : Int) (sf_h : STREAMFILE)
    (h : parse_type_k4hd kwb offset sf_h = some d) :
    read_u32be ((read_u16le (offset + 0x18) sf_h : Int) + offset + 0x00) sf_h = 0x50505641 ∧
    read_u32le ((read_u16le (offset + 0x18) sf_h : Int) + offset + 0x08) sf_h = 0x1c ∧
    d.target_subsong = kwb.target_subsong ∧
    d.total_subsongs =
      to_int32
        (((read_u32le ((read_u16le (offset + 0x18) sf_h : Int) + offset + 0x14) sf_h + 1) %
          2 ^ 32 : Nat) : Int) ∧
    0 ≤ kwb.target_subsong ∧ kwb.target_subsong ≤ d.total_subsongs ∧ 1 ≤ d.total_subsongs ∧
    d.stream_offset =
      read_u32le ((read_u16le (offset + 0x18) sf_h : Int) + offset + 0x20 +
        (kwb.target_subsong - 1) * 0x1C + 0x00) sf_h ∧
    d.sample_rate =
      to_int32 (read_u32le ((read_u16le (offset + 0x18) sf_h : Int) + offset + 0x20 +
        (kwb.target_subsong - 1) * 0x1C + 0x04) sf_h) ∧
    d.stream_size =
      read_u32le ((read_u16le (offset + 0x18) sf_h : Int) + offset + 0x20 +
        (kwb.target_subsong - 1) * 0x1C + 0x08) sf_h ∧
    read_u32le ((read_u16le (offset + 0x18) sf_h : Int) + offset + 0x20 +
        (kwb.target_subsong - 1) * 0x1C + 0x10) sf_h = 2 ∧
    d.codec = kwb_codec.AT9 ∧ d.channels = 1 := by
  unfold parse_type_k4hd at h
  simp only at h
  split_ifs at h with h1 h2 h3 h4
  simp only [Option.some.injEq] at h
  subst h
  simp only [ne_eq, not_not, not_or, not_lt] at h1 h2 h3 h4
  refine ⟨h1, by exact_mod_cast h2, ?_⟩
  simp only [h2] at h4 ⊢
  exact ⟨trivial, trivial, h3.1, h3.2.1, h3.2.2, trivial, trivial, trivial, h4, trivial,
    trivial⟩

/-- What a successful `parse_type_sdwi` has checked and returns. -/
theorem parse_type_sdwi_spec (kwb d : kwb_header) (offset : Int) (sf_h : STREAMFILE)
    (h : parse_type_sdwi kwb offset sf_h = some d) :
    (read_u32be ((read_u32be (offset + 0x28) sf_h : Int) + offset + 0x00) sf_h = 0x53447364 ∨
      read_u32be ((read_u32be (offset + 0x28) sf_h : Int) + offset + 0x04) sf_h = 0x536D706C) ∧
    d.target_subsong = kwb.target_subsong ∧
    d.total_subsongs =
      to_int32
        (read_u32le ((read_u32be (offset + 0x28) sf_h : Int) + offset + 0x0c) sf_h : Int) ∧
    0 ≤ kwb.target_subsong ∧ kwb.target_subsong ≤ d.total_subsongs ∧ 1 ≤ d.total_subsongs ∧
    d.stream_offset =
      read_u32be ((read_u32be (offset + 0x28) sf_h : Int) + offset + 0x10 +
        (kwb.target_subsong - 1) * 0x40 + 0x04) sf_h ∧
    d.sample_rate =
      to_int32 (read_u32be ((read_u32be (offset + 0x28) sf_h : Int) + offset + 0x10 +
        (kwb.target_subsong - 1) * 0x40 + 0x10) sf_h) ∧
    d.stream_size =
      read_u32be ((read_u32be (offset + 0x28) sf_h : Int) + offset + 0x10 +
        (kwb.target_subsong - 1) * 0x40 + 0x24) sf_h ∧
    d.codec = kwb_codec.DSP_BODY ∧ d.channels = 1 := by
  unfold parse_type_sdwi at h
  simp only at h
  split_ifs at h with h1 h3
  simp only [Option.some.injEq] at h
  subst h
  simp only [ne_eq, not_and_or, not_not, not_or, not_lt] at h1 h3
  exact ⟨h1, rfl, rfl, h3.1, h3.2.1, h3.2.2, rfl, rfl, rfl, rfl, rfl⟩

/-- What a successful `parse_kwb` has checked and returns: both magic pairs match, the
variant parser selected by the tag at `head_offset + 0x0C` succeeded, and the
result is its header with `body_offset + 0x0C` added to `stream_offset`. -/
theorem parse_kwb_spec (kwb d : kwb_header) (sf_h sf_b : STREAMFILE)
    (h : parse_kwb kwb sf_h sf_b = some d) :
    (read_u32 (kwb_wrapper kwb sf_h).1 ((kwb_wrapper kwb sf_h).2.1 + 0x00) sf_h = 0x5742485F ∧
      read_u32 (kwb_wrapper kwb sf_h).1 ((kwb_wrapper kwb sf_h).2.1 + 0x04) sf_h = 0x30303030) ∧
    (read_u32 (kwb_wrapper kwb sf_h).1 ((kwb_wrapper kwb sf_h).2.2 + 0x00) sf_b = 0x5742445F ∧
      read_u32 (kwb_wrapper kwb sf_h).1 ((kwb_wrapper kwb sf_h).2.2 + 0x04) sf_b = 0x30303030) ∧
    ∃ v : kwb_header,
      parse_type (read_u32be ((kwb_wrapper kwb sf_h).2.1 + 0x0c + 0x00) sf_h)
        (kwb_wrapper kwb sf_h).1 ((kwb_wrapper kwb sf_h).2.1 + 0x0c) sf_h = some v ∧
      d = { v with stream_offset := v.stream_offset + ((kwb_wrapper kwb sf_h).2.2 + 0x0c) } := by
  unfold parse_kwb at h
  simp only at h
  split_ifs at h with h1 h2
  simp only [ne_eq, not_or, not_not] at h1 h2
  refine ⟨h1, h2, ?_⟩
  cases hv : parse_type (read_u32be ((kwb_wrapper kwb sf_h).2.1 + 0x0c + 0x00) sf_h)
      (kwb_wrapper kwb sf_h).1 ((kwb_wrapper kwb sf_h).2.1 + 0x0c) sf_h with
  | none => rw [hv] at h; exact absurd h (by simp)
  | some v =>
    rw [hv] at h
    simp only [Option.some.injEq] at h
    exact ⟨v, rfl, h.symm⟩

theorem kwb_wrapper_counters (kwb : kwb_header) (sf_h : STREAMFILE) :
    (kwb_wrapper kwb sf_h).1.total_subsongs = kwb.total_subsongs ∧
    (kwb_wrapper kwb sf_h).1.target_subsong = kwb.target_subsong := by
  unfold kwb_wrapper
  split_ifs <;> exact ⟨rfl, rfl⟩

theorem kwb_wrapper_fused (kwb : kwb_header) (sf_h : STREAMFILE)
    (hfused : read_u32be 0x00 sf_h = 0x57484431) :
    (kwb_wrapper kwb sf_h).2.1 = fused_head_offset sf_h ∧
    (kwb_wrapper kwb sf_h).2.2 = fused_body_offset sf_h := by
  unfold kwb_wrapper fused_head_offset fused_body_offset fused_read read_u32
  rw [if_pos hfused]
  by_cases hm : read_u8 0x08 sf_h = 0xFF <;> simp [hm]

/-- The variant parsers report the stream offset declared in the selected record. -/
theorem parse_type_declared (kwb v : kwb_header) (offset : Int) (sf_h : STREAMFILE)
    (h0 : kwb.total_subsongs = 0) (ht : 1 ≤ kwb.target_subsong)
    (h : parse_type (read_u32be (offset + 0x00) sf_h) kwb offset sf_h = some v) :
    v.stream_offset = declared_stream_offset sf_h offset kwb.target_subsong := by
  unfold parse_type at h
  split_ifs at h with h1 h2 h3 h4
  · obtain ⟨E, hE, hf⟩ := (parse_type_kwb2_spec kwb v offset sf_h h0 h).2.2.2.2 ht
    rw [declared_stream_offset, if_pos h1, hE]
    exact hf.2.2.2.2.1
  · rw [declared_stream_offset, if_neg h1, if_pos h2]
    exact (parse_type_k4hd_spec kwb v offset sf_h h).2.2.2.2.2.2.2.1
  · exact absurd h (by simp [parse_type_sdsd])
  · rw [declared_stream_offset, if_neg h1, if_neg h2]
    exact (parse_type_sdwi_spec kwb v offset sf_h h).2.2.2.2.2.2.1

/-- The variant parsers accept no target above the number of subsongs the table
declares: the `int` that holds the count is never above it. -/
theorem parse_type_target_le (kwb v : kwb_header) (offset : Int) (sf_h : STREAMFILE)
    (h0 : kwb.total_subsongs = 0)
    (h : parse_type (read_u32be (offset + 0x00) sf_h) kwb offset sf_h = some v) :
    kwb.target_subsong ≤ variant_total_subsongs sf_h offset := by
  unfold parse_type at h
  split_ifs at h with h1 h2 h3 h4
  · have := parse_type_kwb2_spec kwb v offset sf_h h0 h
    rw [variant_total_subsongs, if_pos h1, ← this.2.1]
    exact this.2.2.2.1
  · have := parse_type_k4hd_spec kwb v offset sf_h h
    rw [variant_total_subsongs, if_neg h1, if_pos h2]
    have hle := this.2.2.2.2.2.1
    rw [this.2.2.2.1] at hle
    refine le_trans hle ?_
    unfold to_int32
    omega
  · exact absurd h (by simp [parse_type_sdsd])
  · have := parse_type_sdwi_spec kwb v offset sf_h h
    rw [variant_total_subsongs, if_neg h1, if_neg h2, if_pos h4]
    have hle := this.2.2.2.2.1
    rw [this.2.2.1] at hle
    refine le_trans hle ?_
    unfold to_int32
    omega

/-- C9 (counterexample). On the fused container `fused_one_entry` the body sub-offset (second
entry of the offset table) is `0x100` and the selected record declares stream
offset `0x40`, yet `parse_kwb` returns `stream_offset = 0x14C`, not `0x140`. -/
theorem parse_kwb_fused_offset_counterexample :
    read_u32be 0x00 fused_one_entry = 0x57484431 ∧
    fused_body_offset fused_one_entry = 0x100 ∧
    declared_stream_offset fused_one_entry (fused_head_offset fused_one_entry + 0x0C) 1 = 0x40 ∧
    (parse_kwb (kwb_request 1) fused_one_entry fused_one_entry).map
      (fun d => d.stream_offset) = some 0x14C ∧
    (parse_kwb (kwb_request 1) fused_one_entry fused_one_entry).map
      (fun d => d.stream_offset) ≠
      some (fused_body_offset fused_one_entry +
        declared_stream_offset fused_one_entry (fused_head_offset fused_one_entry + 0x0C) 1) := by
  decide

/-- C9 (amended). For a fused (`WHD1`) container on which `parse_kwb` succeeds for a requested
index `t ≥ 1`, the returned `stream_offset` is the body sub-offset (second 32-bit
entry of the wrapper's offset table) plus `0x0C` plus the stream offset declared
in the selected record. -/
theorem parse_kwb_fused_stream_offset (t : Int) (sf_h sf_b : STREAMFILE) (d : kwb_header)
    (ht : 1 ≤ t) (hfused : read_u32be 0x00 sf_h = 0x57484431)
    (h : parse_kwb (kwb_request t) sf_h sf_b = some d) :
    d.stream_offset =
      fused_body_offset sf_h + 0x0C +
        declared_stream_offset sf_h (fused_head_offset sf_h + 0x0C) t := by
  obtain ⟨_, _, v, hv, hd⟩ := parse_kwb_spec _ d sf_h sf_b h
  obtain ⟨hw1, hw2⟩ := kwb_wrapper_fused (kwb_request t) sf_h hfused
  obtain ⟨hc1, hc2⟩ := kwb_wrapper_counters (kwb_request t) sf_h
  rw [hw1] at hv
  have := parse_type_declared _ v _ sf_h (by rw [hc1]; rfl) (by rw [hc2]; exact ht) hv
  rw [hc2] at this
  rw [hd, hw2]
  simp only
  rw [this]
  simp only [kwb_request]
  ring

/-- Witness of C9 (amended): `fused_one_entry`, index 1: `0x100 + 0x0C + 0x40 = 0x14C`. -/
theorem parse_kwb_fused_stream_offset_witness :
    (0x14C : Int) =
      fused_body_offset fused_one_entry + 0x0C +
        declared_stream_offset fused_one_entry (fused_head_offset fused_one_entry + 0x0C) 1 :=
  parse_kwb_fused_stream_offset 1 fused_one_entry fused_one_entry
    { kwb_request 1 with
      big_endian := 1, total_subsongs := 1, channels := 2, sample_rate := 44100,
      num_samples := 1000, stream_offset := 0x14C, stream_size := 4000 }
    (by decide) (by decide) (by decide)

/-- C10. Whatever the variant (KWB2/KWBN, K4HD, SDWi), a requested index above the number of
subsongs the container declares makes `parse_kwb` fail: no header is returned. -/
theorem parse_kwb_index_beyond_total (t : Int) (sf_h sf_b : STREAMFILE)
    (h : variant_total_subsongs sf_h ((kwb_wrapper (kwb_request t) sf_h).2.1 + 0x0C) < t) :
    parse_kwb (kwb_request t) sf_h sf_b = none := by
  cases hp : parse_kwb (kwb_request t) sf_h sf_b with
  | none => rfl
  | some d =>
    exfalso
    obtain ⟨_, _, v, hv, _⟩ := parse_kwb_spec _ d sf_h sf_b hp
    obtain ⟨hc1, hc2⟩ := kwb_wrapper_counters (kwb_request t) sf_h
    have := parse_type_target_le _ v _ sf_h (by rw [hc1]; rfl) hv
    rw [hc2] at this
    have e : (kwb_request t).target_subsong = t := rfl
    rw [e] at this
    have h' : variant_total_subsongs sf_h ((kwb_wrapper (kwb_request t) sf_h).2.1 + 0x0c) < t := h
    omega

/-- Witness of C10: index 5 requested of a container with 3 subsongs. -/
theorem parse_kwb_index_beyond_total_witness :
    variant_total_subsongs fused_three_entries
        ((kwb_wrapper (kwb_request 5) fused_three_entries).2.1 + 0x0C) = 3 ∧
    parse_kwb (kwb_request 5) fused_three_entries fused_three_entries = none :=
  ⟨by decide,
   parse_kwb_index_beyond_total 5 fused_three_entries fused_three_entries (by decide)⟩

/-! ### Subsong bounds and the index 0 -/

/-- The bounds check that ends `parse_type_kwb2` (source line 258), on any header. -/
theorem parse_type_kwb2_check (kwb d : kwb_header) (offset : Int) (sf_h : STREAMFILE)
    (h : parse_type_kwb2 kwb offset sf_h = some d) :
    d.target_subsong = kwb.target_subsong ∧ 0 ≤ d.target_subsong ∧
      d.target_subsong ≤ d.total_subsongs ∧ 1 ≤ d.total_subsongs := by
  rw [parse_type_kwb2_eq_scan] at h
  cases hscan : kwb2_scan sf_h (kwb2_walk offset sf_h) kwb with
  | none => rw [hscan] at h; exact absurd h (by simp)
  | some k =>
    rw [hscan] at h
    simp only at h
    split_ifs at h with hbad
    simp only [Option.some.injEq] at h
    subst h
    simp only [not_or, not_lt] at hbad
    exact ⟨kwb2_scan_target sf_h _ kwb k hscan, hbad.1, hbad.2.1, hbad.2.2⟩

/-- Every variant parser leaves the target as it was and accepts it only between 0 and
the total, with a total of at least 1. -/
theorem parse_type_bounds (type : Nat) (kwb v : kwb_header) (offset : Int) (sf_h : STREAMFILE)
    (h : parse_type type kwb offset sf_h = some v) :
    v.target_subsong = kwb.target_subsong ∧ 0 ≤ v.target_subsong ∧
      v.target_subsong ≤ v.total_subsongs ∧ 1 ≤ v.total_subsongs := by
  unfold parse_type at h
  split_ifs at h with h1 h2 h3 h4
  · exact parse_type_kwb2_check kwb v offset sf_h h
  · have := parse_type_k4hd_spec kwb v offset sf_h h
    have e := this.2.2.1
    exact ⟨e, by rw [e]; exact this.2.2.2.2.1, by rw [e]; exact this.2.2.2.2.2.1,
      this.2.2.2.2.2.2.1⟩
  · exact absurd h (by simp [parse_type_sdsd])
  · have := parse_type_sdwi_spec kwb v offset sf_h h
    have e := this.2.1
    exact ⟨e, by rw [e]; exact this.2.2.2.1, by rw [e]; exact this.2.2.2.2.1,
      this.2.2.2.2.2.1⟩

theorem parse_kwb_bounds (kwb d : kwb_header) (sf_h sf_b : STREAMFILE)
    (h : parse_kwb kwb sf_h sf_b = some d) :
    d.target_subsong = kwb.target_subsong ∧ 0 ≤ d.target_subsong ∧
      d.target_subsong ≤ d.total_subsongs ∧ 1 ≤ d.total_subsongs := by
  obtain ⟨_, _, v, hv, hd⟩ := parse_kwb_spec kwb d sf_h sf_b h
  have := parse_type_bounds _ _ v _ sf_h hv
  rw [(kwb_wrapper_counters kwb sf_h).2] at this
  rw [hd]
  exact this

/-- C11 (counterexample). On the container `fused_three_entries` (three subsongs) `parse_kwb`
succeeds for a stored target of 0, so a success does not give
`1 ≤ target_subsong`. -/
theorem parse_kwb_target_zero_counterexample :
    ∃ d : kwb_header,
      parse_kwb (kwb_request 0) fused_three_entries fused_three_entries = some d ∧
      d.target_subsong = 0 ∧ d.total_subsongs = 3 ∧
      ¬ (1 ≤ d.target_subsong ∧ d.target_subsong ≤ d.total_subsongs) :=
  ⟨{ kwb_request 0 with total_subsongs := 3, stream_offset := 0x20C },
    by decide, rfl, rfl, by decide⟩

/-- C11 (amended). For every header, every variant and every header record handed to
`parse_kwb`: if `parse_kwb` reports success then the target is the one stored before
the call and `0 ≤ target_subsong ≤ total_subsongs` with `total_subsongs ≥ 1`; hence
`1 ≤ target_subsong ≤ total_subsongs` whenever the stored target is not 0. -/
theorem parse_kwb_target_bounds (kwb d : kwb_header) (sf_h sf_b : STREAMFILE)
    (h : parse_kwb kwb sf_h sf_b = some d) :
    d.target_subsong = kwb.target_subsong ∧
    0 ≤ d.target_subsong ∧ d.target_subsong ≤ d.total_subsongs ∧ 1 ≤ d.total_subsongs ∧
    (kwb.target_subsong ≠ 0 → 1 ≤ d.target_subsong ∧ d.target_subsong ≤ d.total_subsongs) := by
  obtain ⟨h1, h2, h3, h4⟩ := parse_kwb_bounds kwb d sf_h sf_b h
  refine ⟨h1, h2, h3, h4, ?_⟩
  intro hne
  rw [← h1] at hne
  exact ⟨by omega, h3⟩

/-- Witness of C11 (amended): target 2 of the three subsongs of `fused_three_entries`. -/
theorem parse_kwb_target_bounds_witness :
    (2 : Int) = 2 ∧ (0 : Int) ≤ 2 ∧ (2 : Int) ≤ 3 ∧ (1 : Int) ≤ 3 ∧
    ((2 : Int) ≠ 0 → (1 : Int) ≤ 2 ∧ (2 : Int) ≤ 3) :=
  parse_kwb_target_bounds (kwb_request 2)
    { kwb_request 2 with
      total_subsongs := 3, codec := kwb_codec.MSADPCM, channels := 2, sample_rate := 32000,
      num_samples := 2000, block_size := 70, stream_offset := 0x60C, stream_size := 0x800 }
    fused_three_entries fused_three_entries (by decide)

/-- C12. The parser entry of `init_vgmstream_kwb` (index 0 replaced by 1, then `parse_kwb`)
gives for requested index 0 the very outcome it gives for index 1, the same
failure or the same header in every field; that header has `target_subsong = 1`;
and so `init_vgmstream_kwb` itself returns the same for both indices. -/
theorem parse_kwb_request_zero (sf_h sf_b : STREAMFILE) :
    parse_kwb_request 0 sf_h sf_b = parse_kwb_request 1 sf_h sf_b ∧
    (∀ d : kwb_header, parse_kwb_request 0 sf_h sf_b = some d → d.target_subsong = 1) ∧
    (∀ (lib : kwb_library) (ext : file_ext) (companion : Option STREAMFILE),
      init_vgmstream_kwb lib ext 0 companion sf_b =
        init_vgmstream_kwb lib ext 1 companion sf_b) := by
  have e : ∀ (a b : STREAMFILE), parse_kwb_request 0 a b = parse_kwb_request 1 a b := by
    intro a b
    simp [parse_kwb_request]
  refine ⟨e sf_h sf_b, ?_, ?_⟩
  · intro d hd
    have : parse_kwb (kwb_request 1) sf_h sf_b = some d := by
      simpa [parse_kwb_request] using hd
    exact (parse_kwb_bounds _ d sf_h sf_b this).1
  · intro lib ext companion
    unfold init_vgmstream_kwb
    simp only [e]

/-- Witness of C12: index 0 on `fused_three_entries` selects the first subsong. -/
theorem parse_kwb_request_zero_witness :
    ({ kwb_request 1 with
        total_subsongs := 3, channels := 1, sample_rate := 22050, num_samples := 500,
        stream_offset := 0x21C, stream_size := 1000 } : kwb_header).target_subsong = 1 :=
  (parse_kwb_request_zero fused_three_entries fused_three_entries).2.1
    { kwb_request 1 with
      total_subsongs := 3, channels := 1, sample_rate := 22050, num_samples := 500,
      stream_offset := 0x21C, stream_size := 1000 }
    (by decide)

/-! ### The K4HD record, the variant tag and the magic signatures -/

/-- C13 (amended). When `parse_type_k4hd` succeeds with target `t`: with `P = offset + (u16le at
offset + 0x18)` and `R = P + 0x20 + (t - 1) * 0x1C`, the header holds `stream_offset` and
`stream_size` as the 32-bit LE values at `R + 0x00` and `R + 0x08`, `sample_rate` as the
32-bit LE value at `R + 0x04` held in an `int` (the value itself whenever it is below
`2^31`), `channels = 1`, `codec = AT9`, and `total_subsongs` is the 32-bit LE value at
`P + 0x14` plus 1. -/
theorem parse_type_k4hd_fields (kwb d : kwb_header) (offset : Int) (sf_h : STREAMFILE)
    (h : parse_type_k4hd kwb offset sf_h = some d) :
    d.stream_offset =
      read_u32le (offset + (read_u16le (offset + 0x18) sf_h : Int) + 0x20 +
        (kwb.target_subsong - 1) * 0x1C + 0x00) sf_h ∧
    d.sample_rate =
      to_int32 (read_u32le (offset + (read_u16le (offset + 0x18) sf_h : Int) + 0x20 +
        (kwb.target_subsong - 1) * 0x1C + 0x04) sf_h) ∧
    (read_u32le (offset + (read_u16le (offset + 0x18) sf_h : Int) + 0x20 +
        (kwb.target_subsong - 1) * 0x1C + 0x04) sf_h ≤ 2147483647 →
      d.sample_rate =
        read_u32le (offset + (read_u16le (offset + 0x18) sf_h : Int) + 0x20 +
          (kwb.target_subsong - 1) * 0x1C + 0x04) sf_h) ∧
    d.stream_size =
      read_u32le (offset + (read_u16le (offset + 0x18) sf_h : Int) + 0x20 +
        (kwb.target_subsong - 1) * 0x1C + 0x08) sf_h ∧
    d.channels = 1 ∧ d.codec = kwb_codec.AT9 ∧
    d.total_subsongs =
      (read_u32le (offset + (read_u16le (offset + 0x18) sf_h : Int) + 0x14) sf_h : Int) + 1 := by
  have e : offset + (read_u16le (offset + 0x18) sf_h : Int) =
      (read_u16le (offset + 0x18) sf_h : Int) + offset := add_comm _ _
  obtain ⟨_, _, _, htot, _, _, hpos, h1, h2, h3, _, h4, h5⟩ :=
    parse_type_k4hd_spec kwb d offset sf_h h
  rw [e]
  refine ⟨h1, h2, ?_, h3, h5, h4, ?_⟩
  · intro hlt
    rw [h2]
    exact to_int32_of_range _ (by omega) (by exact_mod_cast hlt)
  · rw [htot] at hpos ⊢
    have hu : read_u32le ((read_u16le (offset + 0x18) sf_h : Int) + offset + 0x14) sf_h
        < 4294967296 := by
      unfold read_u32le
      omega
    generalize read_u32le ((read_u16le (offset + 0x18) sf_h : Int) + offset + 0x14) sf_h = u
      at hu hpos ⊢
    unfold to_int32 at hpos ⊢
    omega

/-- Witness of C13 (amended): a table of three records, target 3, yields the fields of the
third. -/
theorem parse_type_k4hd_fields_witness :
    (0x3000 : Int) = read_u32le (0x3C + (read_u16le (0x3C + 0x18) fused_k4hd : Int) + 0x20 +
        ((3 : Int) - 1) * 0x1C + 0x00) fused_k4hd ∧
    (48000 : Int) = to_int32 (read_u32le (0x3C + (read_u16le (0x3C + 0x18) fused_k4hd : Int) +
        0x20 + ((3 : Int) - 1) * 0x1C + 0x04) fused_k4hd) ∧
    (read_u32le (0x3C + (read_u16le (0x3C + 0x18) fused_k4hd : Int) + 0x20 +
        ((3 : Int) - 1) * 0x1C + 0x04) fused_k4hd ≤ 2147483647 →
      (48000 : Int) = read_u32le (0x3C + (read_u16le (0x3C + 0x18) fused_k4hd : Int) + 0x20 +
        ((3 : Int) - 1) * 0x1C + 0x04) fused_k4hd) ∧
    (0x1000 : Int) = read_u32le (0x3C + (read_u16le (0x3C + 0x18) fused_k4hd : Int) + 0x20 +
        ((3 : Int) - 1) * 0x1C + 0x08) fused_k4hd ∧
    (1 : Int) = 1 ∧ kwb_codec.AT9 = kwb_codec.AT9 ∧
    (3 : Int) =
      (read_u32le (0x3C + (read_u16le (0x3C + 0x18) fused_k4hd : Int) + 0x14) fused_k4hd : Int)
        + 1 :=
  parse_type_k4hd_fields (kwb_request 3)
    { kwb_request 3 with
      total_subsongs := 3, codec := kwb_codec.AT9, channels := 1, sample_rate := 48000,
      stream_offset := 0x3000, stream_size := 0x1000 }
    0x3C fused_k4hd (by decide)

/-- C13 (counterexample). On `fused_k4hd_wide_rate` the third record (at `R = 0xB4`) declares the
sample rate `0xFFFFFFFF`, and the header holds `sample_rate = -1`, not 4294967295. -/
theorem sample_rate_narrowed_counterexample :
    (0x3C + (read_u16le (0x3C + 0x18) fused_k4hd_wide_rate : Int) + 0x20 +
      ((3 : Int) - 1) * 0x1C = 0xB4) ∧
    read_u32le (0xB4 + 0x04) fused_k4hd_wide_rate = 4294967295 ∧
    (parse_type_k4hd (kwb_request 3) 0x3C fused_k4hd_wide_rate).map
      (fun d => d.sample_rate) = some (-1) := by
  decide

/-- C15. `parse_kwb` succeeds only if the big-endian tag at the resolved header start plus
`0x0C` is `KWB2`, `KWBN`, `K4HD` or `SDWi`; with any other tag it fails, and with the tag
`SDsd` it fails whatever else the header holds. -/
theorem parse_kwb_variant_tag (kwb : kwb_header) (sf_h sf_b : STREAMFILE) :
    (∀ d : kwb_header, parse_kwb kwb sf_h sf_b = some d →
      read_u32be ((kwb_wrapper kwb sf_h).2.1 + 0x0C) sf_h = 0x4B574232 ∨
      read_u32be ((kwb_wrapper kwb sf_h).2.1 + 0x0C) sf_h = 0x4B57424E ∨
      read_u32be ((kwb_wrapper kwb sf_h).2.1 + 0x0C) sf_h = 0x4B344844 ∨
      read_u32be ((kwb_wrapper kwb sf_h).2.1 + 0x0C) sf_h = 0x53445769) ∧
    (¬ (read_u32be ((kwb_wrapper kwb sf_h).2.1 + 0x0C) sf_h = 0x4B574232 ∨
        read_u32be ((kwb_wrapper kwb sf_h).2.1 + 0x0C) sf_h = 0x4B57424E ∨
        read_u32be ((kwb_wrapper kwb sf_h).2.1 + 0x0C) sf_h = 0x4B344844 ∨
        read_u32be ((kwb_wrapper kwb sf_h).2.1 + 0x0C) sf_h = 0x53445769) →
      parse_kwb kwb sf_h sf_b = none) ∧
    (read_u32be ((kwb_wrapper kwb sf_h).2.1 + 0x0C) sf_h = 0x53447364 →
      parse_kwb kwb sf_h sf_b = none) := by
  have key : ∀ d : kwb_header, parse_kwb kwb sf_h sf_b = some d →
      read_u32be ((kwb_wrapper kwb sf_h).2.1 + 0x0C) sf_h = 0x4B574232 ∨
      read_u32be ((kwb_wrapper kwb sf_h).2.1 + 0x0C) sf_h = 0x4B57424E ∨
      read_u32be ((kwb_wrapper kwb sf_h).2.1 + 0x0C) sf_h = 0x4B344844 ∨
      read_u32be ((kwb_wrapper kwb sf_h).2.1 + 0x0C) sf_h = 0x53445769 := by
    intro d h
    obtain ⟨_, _, v, hv, _⟩ := parse_kwb_spec kwb d sf_h sf_b h
    rw [add_zero] at hv
    unfold parse_type at hv
    split_ifs at hv with h1 h2 h3 h4
    · rcases h1 with h1 | h1
      · exact Or.inl h1
      · exact Or.inr (Or.inl h1)
    · exact Or.inr (Or.inr (Or.inl h2))
    · exact absurd hv (by simp [parse_type_sdsd])
    · exact Or.inr (Or.inr (Or.inr h4))
  refine ⟨key, ?_, ?_⟩
  · intro hno
    cases hp : parse_kwb kwb sf_h sf_b with
    | none => rfl
    | some d => exact absurd (key d hp) hno
  · intro hsd
    cases hp : parse_kwb kwb sf_h sf_b with
    | none => rfl
    | some d =>
      have := key d hp
      rw [hsd] at this
      norm_num at this

/-- Witness of C15: `fused_one_entry` is tagged `KWB2` and parses; `fused_sdsd`, tagged `SDsd` with
both magic pairs in place, does not. -/
theorem parse_kwb_variant_tag_witness :
    (read_u32be ((kwb_wrapper (kwb_request 1) fused_one_entry).2.1 + 0x0C) fused_one_entry
        = 0x4B574232 ∨
      read_u32be ((kwb_wrapper (kwb_request 1) fused_one_entry).2.1 + 0x0C) fused_one_entry
        = 0x4B57424E ∨
      read_u32be ((kwb_wrapper (kwb_request 1) fused_one_entry).2.1 + 0x0C) fused_one_entry
        = 0x4B344844 ∨
      read_u32be ((kwb_wrapper (kwb_request 1) fused_one_entry).2.1 + 0x0C) fused_one_entry
        = 0x53445769) ∧
    parse_kwb (kwb_request 1) fused_sdsd fused_sdsd = none :=
  ⟨(parse_kwb_variant_tag (kwb_request 1) fused_one_entry fused_one_entry).1
      { kwb_request 1 with
        big_endian := 1, total_subsongs := 1, channels := 2, sample_rate := 44100,
        num_samples := 1000, stream_offset := 0x14C, stream_size := 4000 }
      (by decide),
   (parse_kwb_variant_tag (kwb_request 1) fused_sdsd fused_sdsd).2.2 (by decide)⟩

/-- C16. `parse_kwb` succeeds only if the two 32-bit words at the header sub-offset of the
header region, read in the resolved endianness, are `0x5742485F` and `0x30303030`, and
the two words at the body sub-offset of the body region are `0x5742445F` and
`0x30303030`; a mismatch in any of the four makes it fail, whatever the variant
tag and the tables hold. -/
theorem parse_kwb_magic (kwb : kwb_header) (sf_h sf_b : STREAMFILE) :
    (∀ d : kwb_header, parse_kwb kwb sf_h sf_b = some d →
      read_u32 (kwb_wrapper kwb sf_h).1 ((kwb_wrapper kwb sf_h).2.1 + 0x00) sf_h = 0x5742485F ∧
      read_u32 (kwb_wrapper kwb sf_h).1 ((kwb_wrapper kwb sf_h).2.1 + 0x04) sf_h = 0x30303030 ∧
      read_u32 (kwb_wrapper kwb sf_h).1 ((kwb_wrapper kwb sf_h).2.2 + 0x00) sf_b = 0x5742445F ∧
      read_u32 (kwb_wrapper kwb sf_h).1 ((kwb_wrapper kwb sf_h).2.2 + 0x04) sf_b = 0x30303030) ∧
    (read_u32 (kwb_wrapper kwb sf_h).1 ((kwb_wrapper kwb sf_h).2.1 + 0x00) sf_h ≠ 0x5742485F ∨
      read_u32 (kwb_wrapper kwb sf_h).1 ((kwb_wrapper kwb sf_h).2.1 + 0x04) sf_h ≠ 0x30303030 ∨
      read_u32 (kwb_wrapper kwb sf_h).1 ((kwb_wrapper kwb sf_h).2.2 + 0x00) sf_b ≠ 0x5742445F ∨
      read_u32 (kwb_wrapper kwb sf_h).1 ((kwb_wrapper kwb sf_h).2.2 + 0x04) sf_b ≠ 0x30303030 →
      parse_kwb kwb sf_h sf_b = none) := by
  constructor
  · intro d h
    obtain ⟨h1, h2, _⟩ := parse_kwb_spec kwb d sf_h sf_b h
    exact ⟨h1.1, h1.2, h2.1, h2.2⟩
  · intro hbad
    unfold parse_kwb
    simp only
    by_cases hh : read_u32 (kwb_wrapper kwb sf_h).1 ((kwb_wrapper kwb sf_h).2.1 + 0x00) sf_h ≠
        0x5742485F ∨
        read_u32 (kwb_wrapper kwb sf_h).1 ((kwb_wrapper kwb sf_h).2.1 + 0x04) sf_h ≠ 0x30303030
    · rw [if_pos hh]
    · rw [if_neg hh]
      have hb : read_u32 (kwb_wrapper kwb sf_h).1 ((kwb_wrapper kwb sf_h).2.2 + 0x00) sf_b ≠
          0x5742445F ∨
          read_u32 (kwb_wrapper kwb sf_h).1 ((kwb_wrapper kwb sf_h).2.2 + 0x04) sf_b ≠
            0x30303030 := by
        rcases hbad with h | h | h | h
        · exact absurd (Or.inl h) hh
        · exact absurd (Or.inr h) hh
        · exact Or.inl h
        · exact Or.inr h
      rw [if_pos hb]

/-- Witness of C16: `fused_one_entry` parses against its own body; against the body region
of `fused_three_entries`, which holds no `WBD_` at `0x100`, it fails. -/
theorem parse_kwb_magic_witness :
    (read_u32 (kwb_wrapper (kwb_request 1) fused_one_entry).1
        ((kwb_wrapper (kwb_request 1) fused_one_entry).2.1 + 0x00) fused_one_entry = 0x5742485F ∧
      read_u32 (kwb_wrapper (kwb_request 1) fused_one_entry).1
        ((kwb_wrapper (kwb_request 1) fused_one_entry).2.1 + 0x04) fused_one_entry = 0x30303030 ∧
      read_u32 (kwb_wrapper (kwb_request 1) fused_one_entry).1
        ((kwb_wrapper (kwb_request 1) fused_one_entry).2.2 + 0x00) fused_one_entry = 0x5742445F ∧
      read_u32 (kwb_wrapper (kwb_request 1) fused_one_entry).1
        ((kwb_wrapper (kwb_request 1) fused_one_entry).2.2 + 0x04) fused_one_entry = 0x30303030) ∧
    parse_kwb (kwb_request 1) fused_one_entry fused_three_entries = none :=
  ⟨(parse_kwb_magic (kwb_request 1) fused_one_entry fused_one_entry).1
      { kwb_request 1 with
        big_endian := 1, total_subsongs := 1, channels := 2, sample_rate := 44100,
        num_samples := 1000, stream_offset := 0x14C, stream_size := 4000 }
      (by decide),
   (parse_kwb_magic (kwb_request 1) fused_one_entry fused_three_entries).2
      (Or.inr (Or.inr (Or.inl (by decide))))⟩

/-! ### Codec ids, the SDWi tags and the channel count -/

/-- The scan of a table that holds the target: the outcome is that of reading the target
entry, with the count of the whole table. -/
theorem kwb2_scan_at (sf_h : STREAMFILE) :
    ∀ (l : List Int) (kwb : kwb_header) (E : Int),
      kwb.total_subsongs < kwb.target_subsong →
      -2147483648 ≤ kwb.total_subsongs →
      kwb.total_subsongs + (l.length : Int) ≤ 2147483647 →
      l[(kwb.target_subsong - kwb.total_subsongs - 1).toNat]? = some E →
      kwb2_scan sf_h l kwb =
        (kwb2_entry { kwb with total_subsongs := kwb.target_subsong } E sf_h).map
          (fun k => { k with total_subsongs := kwb.total_subsongs + (l.length : Int) }) := by
  intro l
  induction l with
  | nil => intro kwb E _ _ _ h; simp at h
  | cons E0 rest ih =>
    intro kwb E hlt hlo hhi hE
    simp only [List.length_cons, Nat.cast_add, Nat.cast_one] at hhi
    have e : to_int32 (kwb.total_subsongs + 1) = kwb.total_subsongs + 1 :=
      to_int32_of_range _ (by omega) (by omega)
    rw [kwb2_scan, e]
    by_cases hne : kwb.total_subsongs + 1 ≠ kwb.target_subsong
    · rw [if_pos hne]
      have hidx : (kwb.target_subsong - kwb.total_subsongs - 1).toNat =
          (kwb.target_subsong - (kwb.total_subsongs + 1) - 1).toNat + 1 := by omega
      rw [hidx, List.getElem?_cons_succ] at hE
      rw [ih { kwb with total_subsongs := kwb.total_subsongs + 1 } E (by simp only; omega)
        (by simp only; omega) (by simp only; omega) hE]
      simp only [List.length_cons, Nat.cast_add, Nat.cast_one]
      congr 1
      funext k
      congr 1
      omega
    · rw [if_neg hne]
      have heq : kwb.total_subsongs + 1 = kwb.target_subsong := by
        by_contra hcon; exact hne hcon
      have hidx : (kwb.target_subsong - kwb.total_subsongs - 1).toNat = 0 := by omega
      rw [hidx] at hE
      simp only [List.getElem?_cons_zero, Option.some.injEq] at hE
      subst hE
      rw [heq]
      cases hent : kwb2_entry { kwb with total_subsongs := kwb.target_subsong } E0 sf_h with
      | none => rfl
      | some k =>
        obtain ⟨hk1, hk2, _⟩ := kwb2_entry_some _ k E0 sf_h hent
        simp only at hk1 hk2
        simp only [Option.map_some']
        rw [kwb2_scan_past sf_h rest k (by omega) (by omega) (by omega)]
        simp only [List.length_cons, Nat.cast_add, Nat.cast_one, Option.some.injEq]
        congr 1
        omega

/-- With a target inside the table, `parse_type_kwb2` succeeds exactly when the reading of the
target entry does. -/
theorem parse_type_kwb2_at (kwb : kwb_header) (offset : Int) (sf_h : STREAMFILE) (E : Int)
    (h0 : kwb.total_subsongs = 0) (ht : 1 ≤ kwb.target_subsong)
    (hE : (kwb2_walk offset sf_h)[(kwb.target_subsong - 1).toNat]? = some E) :
    parse_type_kwb2 kwb offset sf_h =
      (kwb2_entry { kwb with total_subsongs := kwb.target_subsong } E sf_h).map
        (fun k => { k with total_subsongs := (kwb2_subsong_count offset sf_h : Int) }) := by
  have hb := kwb2_subsong_count_le offset sf_h
  have hlen : kwb.target_subsong ≤ ((kwb2_walk offset sf_h).length : Int) := by
    have := (List.getElem?_eq_some_iff.mp hE).1
    omega
  rw [parse_type_kwb2_eq_scan,
    kwb2_scan_at sf_h _ kwb E (by omega) (by rw [h0]; norm_num)
      (by rw [h0, kwb2_walk_length]; omega) (by rw [h0, sub_zero]; exact hE), h0, zero_add,
    kwb2_walk_length] at *
  cases hent : kwb2_entry { kwb with total_subsongs := kwb.target_subsong } E sf_h with
  | none => rfl
  | some k =>
    obtain ⟨_, hk2, _⟩ := kwb2_entry_some _ k E sf_h hent
    simp only at hk2
    simp only [Option.map_some']
    rw [if_neg]
    simp only [hk2, not_or, not_lt]
    omega

/-- C17 (amended). For a KWB2/KWBN table entered with `total_subsongs = 0` and a target `t ≥ 1`
within the total, with `E` the offset the parser forms for the `t`-th sub-entry, which
is the plain sum `offset + slot + start + j * stride` held in an `int`, and `c` the 8-bit
codec id at `E + 0x02`: `c = 0x00` gives a header with codec `PCM16`, `c = 0x10` one with
`MSADPCM`, `c = 0x90` one with `DSP_HEAD` and `dsp_offset = E + 0x4C`; any other `c` makes
`parse_type_kwb2` fail. The outcome depends on no other codec id. -/
theorem parse_type_kwb2_codec (kwb : kwb_header) (offset : Int) (sf_h : STREAMFILE) (E : Int)
    (h0 : kwb.total_subsongs = 0) (ht : 1 ≤ kwb.target_subsong)
    (hE : (kwb2_walk offset sf_h)[(kwb.target_subsong - 1).toNat]? = some E) :
    ((kwb2_plain_walk offset sf_h)[(kwb.target_subsong - 1).toNat]?).map to_int32 = some E ∧
    (read_u8 (E + 0x02) sf_h = 0x00 →
      ∃ d, parse_type_kwb2 kwb offset sf_h = some d ∧ d.codec = kwb_codec.PCM16) ∧
    (read_u8 (E + 0x02) sf_h = 0x10 →
      ∃ d, parse_type_kwb2 kwb offset sf_h = some d ∧ d.codec = kwb_codec.MSADPCM) ∧
    (read_u8 (E + 0x02) sf_h = 0x90 →
      ∃ d, parse_type_kwb2 kwb offset sf_h = some d ∧ d.codec = kwb_codec.DSP_HEAD ∧
        d.dsp_offset = E + 0x4C) ∧
    (read_u8 (E + 0x02) sf_h ≠ 0x00 → read_u8 (E + 0x02) sf_h ≠ 0x10 →
      read_u8 (E + 0x02) sf_h ≠ 0x90 → parse_type_kwb2 kwb offset sf_h = none) := by
  have hP : ((kwb2_plain_walk offset sf_h)[(kwb.target_subsong - 1).toNat]?).map to_int32 =
      some E := by
    rw [← List.getElem?_map, ← kwb2_walk_eq_plain]
    exact hE
  rw [parse_type_kwb2_at kwb offset sf_h E h0 ht hE]
  unfold kwb2_entry
  simp only
  refine ⟨hP, ?_, ?_, ?_, ?_⟩
  · intro hc
    rw [if_pos hc]
    exact ⟨_, rfl, rfl⟩
  · intro hc
    rw [if_neg (by rw [hc]; norm_num), if_pos hc]
    exact ⟨_, rfl, rfl⟩
  · intro hc
    rw [if_neg (by rw [hc]; norm_num), if_neg (by rw [hc]; norm_num), if_pos hc]
    exact ⟨_, rfl, rfl, rfl⟩
  · intro h1 h2 h3
    rw [if_neg h1, if_neg h2, if_neg h3]
    rfl

/-- Witness of C17 (amended): the third subsong of `fused_three_entries`, at `0x16C`, has codec
id `0x90`. -/
theorem parse_type_kwb2_codec_witness :
    ∃ d, parse_type_kwb2 (kwb_request 3) 0x3C fused_three_entries = some d ∧
      d.codec = kwb_codec.DSP_HEAD ∧ d.dsp_offset = 0x16C + 0x4C :=
  (parse_type_kwb2_codec (kwb_request 3) 0x3C fused_three_entries 0x16C rfl (by decide)
    (by decide)).2.2.2.1 (by decide)

/-- C17 (counterexample). On `far_record_table` the first sub-entry lies at `E = 0x80000068`
and its codec id, at `E + 0x02`, is `0x90`; `parse_type_kwb2` reads at the `int` that `E`
wraps to, `-2147483544`, finds the codec id `0x00` there and returns a header with codec
`PCM16` and `dsp_offset = 0`, not `DSP_HEAD` with `dsp_offset = E + 0x4C`. -/
theorem far_record_codec_counterexample :
    (kwb2_plain_walk 0x3C far_record_table)[0]? = some 0x80000068 ∧
    read_u8 (0x80000068 + 0x02) far_record_table = 0x90 ∧
    (kwb2_walk 0x3C far_record_table)[0]? = some (-2147483544) ∧
    (parse_type_kwb2 (kwb_request 1) 0x3C far_record_table).map
      (fun d => (d.codec, d.dsp_offset)) = some (kwb_codec.PCM16, 0) := by
  decide

/-- C18 (failing input). An SDWi header whose sub-table at `S = 0x7C` starts with `XXXX`
instead of `SDsd`, followed by `Smpl`: the first tag does not match, yet
`parse_type_sdwi` succeeds. -/
theorem parse_type_sdwi_first_tag_unchecked :
    read_u32be ((read_u32be (0x3C + 0x28) (fused_sdwi [0x58, 0x58, 0x58, 0x58]) : Int) + 0x3C)
        (fused_sdwi [0x58, 0x58, 0x58, 0x58]) ≠ 0x53447364 ∧
    parse_type_sdwi (kwb_request 1) 0x3C (fused_sdwi [0x58, 0x58, 0x58, 0x58]) =
      some { kwb_request 1 with
             total_subsongs := 1, codec := kwb_codec.DSP_BODY, channels := 1,
             sample_rate := 32000, stream_offset := 0x100, stream_size := 0x800 } := by
  decide

/-- C19 (counterexample). On `fused_no_channels`, a KWB2 container whose selected sub-entry
declares 0 channels, `parse_kwb` succeeds with `channels = 0`. -/
theorem channels_zero_counterexample :
    ∃ d : kwb_header,
      parse_kwb (kwb_request 1) fused_no_channels fused_no_channels = some d ∧
      d.channels = 0 ∧ ¬ (1 ≤ d.channels) :=
  ⟨{ kwb_request 1 with
      big_endian := 1, total_subsongs := 1, channels := 0, sample_rate := 44100,
      num_samples := 1000, stream_offset := 0x14C, stream_size := 4000 },
    by decide, rfl, by decide⟩

/-- C19 (amended). When `parse_kwb` succeeds for a requested index `t ≥ 1`: in the K4HD and
SDWi variants the header has `channels = 1`; in the KWB2/KWBN variant `channels` is the 8-bit
channel count at `E + 0x03` of the selected sub-entry, so `channels ≥ 1` exactly when
that byte is not 0. -/
theorem parse_kwb_channels (t : Int) (sf_h sf_b : STREAMFILE) (d : kwb_header)
    (ht : 1 ≤ t) (h : parse_kwb (kwb_request t) sf_h sf_b = some d) :
    ((read_u32be ((kwb_wrapper (kwb_request t) sf_h).2.1 + 0x0C) sf_h = 0x4B344844 ∨
        read_u32be ((kwb_wrapper (kwb_request t) sf_h).2.1 + 0x0C) sf_h = 0x53445769) ∧
      d.channels = 1) ∨
    ((read_u32be ((kwb_wrapper (kwb_request t) sf_h).2.1 + 0x0C) sf_h = 0x4B574232 ∨
        read_u32be ((kwb_wrapper (kwb_request t) sf_h).2.1 + 0x0C) sf_h = 0x4B57424E) ∧
      ∃ E, (kwb2_walk ((kwb_wrapper (kwb_request t) sf_h).2.1 + 0x0C) sf_h)[(t - 1).toNat]?
          = some E ∧
        d.channels = read_u8 (E + 0x03) sf_h ∧
        (1 ≤ d.channels ↔ read_u8 (E + 0x03) sf_h ≠ 0)) := by
  obtain ⟨_, _, v, hv, hd⟩ := parse_kwb_spec _ d sf_h sf_b h
  obtain ⟨hc1, hc2⟩ := kwb_wrapper_counters (kwb_request t) sf_h
  have hch : d.channels = v.channels := by rw [hd]
  rw [add_zero] at hv
  unfold parse_type at hv
  split_ifs at hv with h1 h2 h3 h4
  · right
    refine ⟨h1, ?_⟩
    obtain ⟨E, hE, hf⟩ := (parse_type_kwb2_spec _ v _ sf_h (by rw [hc1]; rfl) hv).2.2.2.2
      (by rw [hc2]; exact ht)
    rw [hc2] at hE
    refine ⟨E, hE, by rw [hch]; exact hf.2.1, ?_⟩
    rw [hch, hf.2.1]
    constructor
    · intro hpos hz
      rw [hz] at hpos
      norm_num at hpos
    · intro hnz
      have : 1 ≤ read_u8 (E + 0x03) sf_h := Nat.one_le_iff_ne_zero.mpr hnz
      exact_mod_cast this
  · left
    exact ⟨Or.inl h2, by rw [hch]; exact (parse_type_k4hd_spec _ v _ sf_h hv).2.2.2.2.2.2.2.2.2.2.2.2⟩
  · exact absurd hv (by simp [parse_type_sdsd])
  · left
    exact ⟨Or.inr h4, by rw [hch]; exact (parse_type_sdwi_spec _ v _ sf_h hv).2.2.2.2.2.2.2.2.2.2⟩

/-- Witness of C19 (amended): the third record of the K4HD table of `fused_k4hd` gives one
channel. -/
theorem parse_kwb_channels_witness :
    ((read_u32be ((kwb_wrapper (kwb_request 3) fused_k4hd).2.1 + 0x0C) fused_k4hd = 0x4B344844 ∨
        read_u32be ((kwb_wrapper (kwb_request 3) fused_k4hd).2.1 + 0x0C) fused_k4hd = 0x53445769) ∧
      (1 : Int) = 1) ∨
    ((read_u32be ((kwb_wrapper (kwb_request 3) fused_k4hd).2.1 + 0x0C) fused_k4hd = 0x4B574232 ∨
        read_u32be ((kwb_wrapper (kwb_request 3) fused_k4hd).2.1 + 0x0C) fused_k4hd = 0x4B57424E) ∧
      ∃ E, (kwb2_walk ((kwb_wrapper (kwb_request 3) fused_k4hd).2.1 + 0x0C) fused_k4hd)[
            ((3 : Int) - 1).toNat]? = some E ∧
        (1 : Int) = read_u8 (E + 0x03) fused_k4hd ∧
        ((1 : Int) ≤ 1 ↔ read_u8 (E + 0x03) fused_k4hd ≠ 0)) :=
  parse_kwb_channels 3 fused_k4hd fused_k4hd
    { kwb_request 3 with
      total_subsongs := 3, codec := kwb_codec.AT9, channels := 1, sample_rate := 48000,
      stream_offset := 0x320C, stream_size := 0x1000 }
    (by decide) (by decide)

/-! ### Stream construction for the in-body DSP header -/

/-- C14. For a header with codec `DSP_BODY` handed to stream construction: whenever a stream
is returned, its `num_samples` is the signed 32-bit value read from the body region
at the header's `stream_offset` (big-endian when `big_endian` is set, little-endian
otherwise), whatever `num_samples` the header carried, and the start handed to
`vgmstream_open_stream` is `stream_offset + 0x60`. A stream is returned when the header
has at most one channel and allocation and opening succeed. -/
theorem build_vgmstream_kwb_dsp_body (lib : kwb_library) (kwb : kwb_header)
    (sf_b : STREAMFILE) (companion : Bool) (hcodec : kwb.codec = kwb_codec.DSP_BODY) :
    (∀ (v : VGMSTREAM stream_fields) (log : List lib_call),
      build_vgmstream_kwb lib kwb sf_b companion = (some v, log) →
      v.num_samples =
        (if kwb.big_endian ≠ 0 then read_s32be else read_s32le) kwb.stream_offset sf_b ∧
      log = close_companion companion ++
        [lib_call.vgmstream_open_stream (kwb.stream_offset + 0x60)]) ∧
    (kwb.channels ≤ 1 →
      (∃ v0, lib.allocate_vgmstream kwb.channels kwb.loop_flag = some v0) →
      (∀ (v : VGMSTREAM stream_fields) (o : Int), lib.vgmstream_open_stream v o = true) →
      ∃ v, (build_vgmstream_kwb lib kwb sf_b companion).1 = some v) := by
  constructor
  · intro v log h
    unfold build_vgmstream_kwb at h
    cases ha : lib.allocate_vgmstream kwb.channels kwb.loop_flag with
    | none => rw [ha] at h; simp at h
    | some v0 =>
      rw [ha] at h
      simp only [kwb_codec_setup, hcodec] at h
      by_cases hch : kwb.channels > 1
      · rw [if_pos hch] at h
        simp at h
      · rw [if_neg hch] at h
        simp only at h
        split_ifs at h with hopen
        · simp only [Prod.mk.injEq, Option.some.injEq] at h
          obtain ⟨hv, hlog⟩ := h
          subst hv
          refine ⟨?_, hlog.symm⟩
          simp only [read_s32, add_zero]
        · simp at h
  · intro hch hall hopen
    obtain ⟨v0, ha⟩ := hall
    unfold build_vgmstream_kwb
    rw [ha]
    simp only [kwb_codec_setup, hcodec]
    rw [if_neg (by omega)]
    simp only [hopen, if_true]
    exact ⟨_, rfl⟩

/-- Witness of C14: the header parsed from `fused_sdwi` (stream offset `0x30C`, big-endian),
made to carry 777 samples; the body holds 5000 at `0x30C`. -/
theorem build_vgmstream_kwb_dsp_body_witness :
    (5000 : Int) =
      (if (1 : Int) ≠ 0 then read_s32be else read_s32le) 0x30C
        (fused_sdwi [0x53, 0x44, 0x73, 0x64]) ∧
    [lib_call.vgmstream_open_stream 0x36C] =
      close_companion false ++ [lib_call.vgmstream_open_stream (0x30C + 0x60)] :=
  (build_vgmstream_kwb_dsp_body stub_library
    { kwb_request 1 with
      big_endian := 1, total_subsongs := 1, codec := kwb_codec.DSP_BODY, channels := 1,
      sample_rate := 32000, num_samples := 777, stream_offset := 0x30C, stream_size := 0x800 }
    (fused_sdwi [0x53, 0x44, 0x73, 0x64]) false rfl).1
    { fresh_vgmstream 1 0 with
      num_samples := 5000
      rest :=
        { (fresh_vgmstream 1 0).rest with
          meta_type := some meta_t.meta_KWB, sample_rate := 32000, stream_size := 0x800,
          num_streams := 1, coding_type := some coding_t.coding_NGC_DSP,
          layout_type := some layout_t.layout_interleave, interleave_block_size := 0x08,
          dsp_tables :=
            [{ hist := false, from_body := true, offset := 0x30C + 0x1c, spacing := 0x60,
               big_endian := 1 },
             { hist := true, from_body := true, offset := 0x30C + 0x40, spacing := 0x60,
               big_endian := 1 }] } }
    [lib_call.vgmstream_open_stream 0x36C] (by decide)

/-! ### Renders stay inside the request -/

end Vgmstream
